import Mathlib

/-!
Verification development for the AIM Forensic Extractor metadata pipeline
(`src/aim.py`).  The Python source is shallowly embedded: pure helper
functions become Lean functions over `Nat`, `Int`, `ℚ`, `String` and lists;
Python floats are modelled by exact rationals; fallible operations return
`Option`/`Except`; OS and third-party library effects (os.stat, file reads,
PIL image decoding, hashlib digests, exifread, platform queries) are supplied
by an explicit `Env` record so that the pipeline logic itself is a total,
executable Lean function.
-/

namespace AIM

/-! ### Python dictionary model

Python `dict` assignment `d[k] = v` keeps the position of an existing key and
appends a new key at the end.  Records and flat categories are association
lists with exactly that update semantics. -/

def dictSet {κ α : Type} [DecidableEq κ] (d : List (κ × α)) (k : κ) (v : α) :
    List (κ × α) :=
  match d with
  | [] => [(k, v)]
  | (k0, v0) :: rest =>
      if k0 = k then (k0, v) :: rest else (k0, v0) :: dictSet rest k v

def dictGet {κ α : Type} [DecidableEq κ] (d : List (κ × α)) (k : κ) :
    Option α :=
  match d with
  | [] => none
  | (k0, v0) :: rest => if k0 = k then some v0 else dictGet rest k

def keysOf {κ α : Type} (d : List (κ × α)) : List κ := d.map Prod.fst

/-! ### Hashing Service (`calculate_file_hashes`, aim.py lines 27-51)

`hashlib` objects are modelled by their absorbed byte sequence: `update`
appends bytes, and the final digest is an abstract function
`digest : String → List Nat → List Nat` (algorithm name to digest bytes of
the absorbed stream), since the cryptographic compression functions are
external library code.  `hexdigest` is hex rendering of the digest bytes,
which is implemented here (`bytesToHex`). -/

def hashNames : List String :=
  ["MD5", "SHA1", "SHA256", "SHA512", "BLAKE2b", "BLAKE2s"]

def hexDigitChar (n : Nat) : Char :=
  if n < 10 then Char.ofNat (48 + n) else Char.ofNat (97 + (n - 10))

def byteHex (b : Nat) : List Char :=
  [hexDigitChar (b / 16 % 16), hexDigitChar (b % 16)]

def bytesToHex (bs : List Nat) : String :=
  String.mk (bs.foldr (fun b acc => byteHex b ++ acc) [])

/-- `f.read(8192)` loop: split the file bytes into successive 8 KiB chunks. -/
def toChunks8192 (bs : List Nat) : List (List Nat) :=
  if h : bs = [] then []
  else bs.take 8192 :: toChunks8192 (bs.drop 8192)
termination_by bs.length
decreasing_by
  simp only [List.length_drop]
  have hlen : 0 < bs.length := List.length_pos.mpr h
  omega

/-- Absorb the chunks in order, as the per-chunk `update` calls do. -/
def absorbChunks (bs : List Nat) : List Nat :=
  (toChunks8192 bs).foldl (fun acc c => acc ++ c) []

/-- `calculate_file_hashes`: one streaming pass of 8 KiB chunks updating all
six digest accumulators, then hex digests; on any I/O failure every
algorithm maps to the same error string. -/
def calculate_file_hashes (digest : String → List Nat → List Nat)
    (file : Except String (List Nat)) : List (String × String) :=
  match file with
  | .ok bs =>
      let absorbed := absorbChunks bs
      hashNames.map (fun n => (n, bytesToHex (digest n absorbed)))
  | .error e => hashNames.map (fun n => (n, "Error: " ++ e))

/-! ### String helpers

Structural re-implementations of `str.split`, `str.upper`, `str.lower`
(ASCII, as the Python values here are ASCII) so every definition reduces
inside the kernel. -/

def splitCharList (c : Char) : List Char → List (List Char)
  | [] => [[]]
  | x :: rest =>
      let r := splitCharList c rest
      if x = c then [] :: r
      else
        match r with
        | [] => [[x]]
        | h :: t => (x :: h) :: t

/-- Python `s.split(c)` for a single-character separator. -/
def splitStr (s : String) (c : Char) : List String :=
  (splitCharList c s.data).map String.mk

def upperStr (s : String) : String := String.mk (s.data.map Char.toUpper)

def lowerStr (s : String) : String := String.mk (s.data.map Char.toLower)

/-! ### Coordinate and unit converters

Python floats are modelled as exact rationals holding the exact value of
the IEEE-754 double.  Fixed-point rendering (`f"{x:.2f}"` and friends)
correctly rounds that value to the requested number of decimals with ties
to even, exactly as CPython formats a double (for example the
exactly-representable 1.125 prints as "1.12"). -/

def roundHalfEven (q : ℚ) : Int :=
  let f := ⌊q⌋
  let frac := q - f
  if frac < 1 / 2 then f
  else if 1 / 2 < frac then f + 1
  else if f % 2 = 0 then f else f + 1

def format2 (q : ℚ) : String :=
  let m : Int := roundHalfEven (q * 100)
  let sign := if m < 0 then "-" else ""
  let a := m.natAbs
  sign ++ toString (a / 100) ++ "." ++
    (if a % 100 < 10 then "0" else "") ++ toString (a % 100)

def format1 (q : ℚ) : String :=
  let m : Int := roundHalfEven (q * 10)
  let sign := if m < 0 then "-" else ""
  let a := m.natAbs
  sign ++ toString (a / 10) ++ "." ++ toString (a % 10)

def pad6 (n : Nat) : String :=
  let s := toString n
  String.mk (List.replicate (6 - s.length) '0') ++ s

def format6 (q : ℚ) : String :=
  let m : Int := roundHalfEven (q * 1000000)
  let sign := if m < 0 then "-" else ""
  let a := m.natAbs
  sign ++ toString (a / 1000000) ++ "." ++ pad6 (a % 1000000)

/-- Fuel-driven floor of log2; fuel 1100 covers every value below 2^1100,
far beyond the 2^1024 overflow bound of a double. -/
def log2Fuel : Nat → Nat → Nat
  | 0, _ => 0
  | fuel + 1, n => if n ≤ 1 then 0 else log2Fuel fuel (n / 2) + 1

def natLog2 (n : Nat) : Nat := log2Fuel 1100 n

/-- The value of CPython `float(n)` for a nonnegative int below 2^1024:
round to 53 significant bits, nearest, ties to even.  (At 2^1024 and above
the conversion raises OverflowError; no stat-reported file size reaches
that, and theorems about sizes are bounded accordingly.) -/
def flNat (n : Nat) : Nat :=
  if n < 2 ^ 53 then n
  else
    let e := natLog2 n - 52
    let q := n / 2 ^ e
    let r := n % 2 ^ e
    (if 2 ^ e < 2 * r ∨ (2 * r = 2 ^ e ∧ q % 2 = 1) then q + 1 else q) * 2 ^ e

def floatOfNat (n : Nat) : ℚ := (flNat n : ℚ)

/-- The unit loop of `get_human_readable_size` from the KB iteration on
(aim.py lines 99-105): the running value is a double, compared against
1024 and divided by 1024 — both exact on doubles, since dividing by a
power of two only moves the exponent — so exact rationals model it; if
the loop exhausts all units the already-divided value is printed as PB
(the post-loop fallback line).  The `unit == 'B'` arm mirrors the source
loop body; the caller peels the B iteration because there the value is
still the Python int. -/
def hrLoop : List String → ℚ → String
  | [], q => format2 q ++ " PB"
  | unit :: rest, q =>
      if q < 1024 then
        if unit = "B" then toString q.num ++ " " ++ unit
        else format2 q ++ " " ++ unit
      else hrLoop rest (q / 1024)

def sizeUnits : List String := ["B", "KB", "MB", "GB", "TB", "PB"]

/-- `get_human_readable_size` (aim.py lines 97-105).  The B iteration
compares the Python int against 1024.0 exactly and prints it without
decimals; the first `size_bytes /= 1024.0` converts the int to an
IEEE-754 double (`floatOfNat`) before dividing, and the remaining
iterations run on that double. -/
def get_human_readable_size (n : Nat) : String :=
  if n < 1024 then toString n ++ " B"
  else hrLoop ["KB", "MB", "GB", "TB", "PB"] (floatOfNat n / 1024)

/-- Modelled from the spec wording of claim C6, not from the source: the
count is rendered in the first (largest) unit whose scaled value is below
1024, whole bytes without decimals, all larger units with two decimals.
Stated as a predicate so the claim can be refuted at the PB boundary. -/
def humanSizeClaim (n : Nat) : Prop :=
  ∃ i : Fin 6, ((n : ℚ) / 1024 ^ (i : Nat) < 1024) ∧
    (∀ j : Fin 6, j < i → ¬((n : ℚ) / 1024 ^ (j : Nat) < 1024)) ∧
    get_human_readable_size n =
      (if (i : Nat) = 0 then toString n ++ " B"
       else format2 ((n : ℚ) / 1024 ^ (i : Nat)) ++ " " ++
         sizeUnits.getD (i : Nat) "")

/-! ### `float(...)` on strings, `str.strip()`, timestamp parsing -/

def digitsVal (ds : List Char) : Nat :=
  ds.foldl (fun a c => a * 10 + (c.toNat - 48)) 0

def pyStrip (s : String) : String :=
  String.mk
    (((s.data.dropWhile Char.isWhitespace).reverse.dropWhile
        Char.isWhitespace).reverse)

/-- Python `float(str)`: optional surrounding whitespace and sign, decimal
digits with optional fraction and exponent.  (`inf`, `nan` and digit
underscores are not modelled; no GPS string uses them.) -/
def pyFloat (s : String) : Option ℚ :=
  let cs := (pyStrip s).data
  let (sgn, cs) : ℚ × List Char :=
    match cs with
    | '+' :: r => (1, r)
    | '-' :: r => (-1, r)
    | r => (1, r)
  let ipart := cs.takeWhile Char.isDigit
  let cs1 := cs.dropWhile Char.isDigit
  let (fpart, cs2) : List Char × List Char :=
    match cs1 with
    | '.' :: r => (r.takeWhile Char.isDigit, r.dropWhile Char.isDigit)
    | r => ([], r)
  if ipart.isEmpty && fpart.isEmpty then none
  else
    let base : ℚ :=
      (digitsVal ipart : ℚ) + (digitsVal fpart : ℚ) / (10 : ℚ) ^ fpart.length
    match cs2 with
    | [] => some (sgn * base)
    | e :: r =>
        if e = 'e' ∨ e = 'E' then
          let (esgn, r1) : Int × List Char :=
            match r with
            | '+' :: r2 => (1, r2)
            | '-' :: r2 => (-1, r2)
            | r2 => (1, r2)
          let eds := r1.takeWhile Char.isDigit
          let rest := r1.dropWhile Char.isDigit
          if eds.isEmpty ∨ rest ≠ [] then none
          else some (sgn * base * (10 : ℚ) ^ (esgn * (digitsVal eds : Int)))
        else none

def monthName : Nat → String
  | 1 => "January"
  | 2 => "February"
  | 3 => "March"
  | 4 => "April"
  | 5 => "May"
  | 6 => "June"
  | 7 => "July"
  | 8 => "August"
  | 9 => "September"
  | 10 => "October"
  | 11 => "November"
  | 12 => "December"
  | _ => ""

def pad2 (n : Nat) : String := if n < 10 then "0" ++ toString n else toString n

def pad4 (n : Nat) : String :=
  if n < 10 then "000" ++ toString n
  else if n < 100 then "00" ++ toString n
  else if n < 1000 then "0" ++ toString n
  else toString n

def isLeap (y : Nat) : Bool := y % 4 == 0 && (y % 100 != 0 || y % 400 == 0)

def daysInMonth (y m : Nat) : Nat :=
  if m = 2 then (if isLeap y then 29 else 28)
  else if m = 4 ∨ m = 6 ∨ m = 9 ∨ m = 11 then 30
  else 31

/-- A one-or-two digit `strptime` field with an inclusive value range. -/
def field2 (lo hi : Nat) (cs : List Char) : Option (Nat × List Char) :=
  let ds := cs.takeWhile Char.isDigit
  let rest := cs.dropWhile Char.isDigit
  if (ds.length = 1 ∨ ds.length = 2) ∧ lo ≤ digitsVal ds ∧ digitsVal ds ≤ hi
  then some (digitsVal ds, rest) else none

/-- `%Y` in CPython strptime: exactly four digits. -/
def year4 (cs : List Char) : Option (Nat × List Char) :=
  let ds := cs.takeWhile Char.isDigit
  let rest := cs.dropWhile Char.isDigit
  if ds.length = 4 then some (digitsVal ds, rest) else none

def eatChar (c : Char) : List Char → Option (List Char)
  | [] => none
  | c0 :: r => if c0 = c then some r else none

/-- Whitespace in a strptime format matches one or more whitespace chars. -/
def eatWs : List Char → Option (List Char)
  | [] => none
  | c :: r =>
      if c.isWhitespace then some (r.dropWhile Char.isWhitespace) else none

/-- `datetime.strptime` against `"%Y<sep>%m<sep>%d %H:%M:%S"`, including the
calendar validation performed by the `datetime` constructor (day of month,
seconds below 60). -/
def parseDT (sep : Char) (s : String) :
    Option (Nat × Nat × Nat × Nat × Nat × Nat) := do
  let (y, cs) ← year4 s.data
  let cs ← eatChar sep cs
  let (mo, cs) ← field2 1 12 cs
  let cs ← eatChar sep cs
  let (d, cs) ← field2 1 31 cs
  let cs ← eatWs cs
  let (h, cs) ← field2 0 23 cs
  let cs ← eatChar ':' cs
  let (mi, cs) ← field2 0 59 cs
  let cs ← eatChar ':' cs
  let (sec, cs) ← field2 0 61 cs
  if cs = [] ∧ d ≤ daysInMonth y mo ∧ sec ≤ 59 then pure (y, mo, d, h, mi, sec)
  else none

/-- `strftime("%B %d, %Y at %H:%M:%S")`. -/
def renderLong : Nat × Nat × Nat × Nat × Nat × Nat → String
  | (y, mo, d, h, mi, s) =>
      monthName mo ++ " " ++ pad2 d ++ ", " ++ pad4 y ++ " at " ++
        pad2 h ++ ":" ++ pad2 mi ++ ":" ++ pad2 s

/-- `format_exif_time` (aim.py lines 83-95): strip the input, try the three
timestamp formats in order, return the first successful reformat, otherwise
the (stripped) string. -/
def format_exif_time (time_str : String) : String :=
  let t := pyStrip time_str
  match parseDT ':' t with
  | some v => renderLong v
  | none =>
      match parseDT '-' t with
      | some v => renderLong v
      | none =>
          match parseDT '/' t with
          | some v => renderLong v
          | none => t

/-! ### GPS conversion (`convert_gps_coordinates`, aim.py lines 53-81)

A value stored under a GPS tag is `None`, an ordered sequence of rationals
(EXIF triplets; PIL rationals coerce through `float`), a string, or a bare
number.  `float(None)` and `float()` of an unparsable string raise, and the
enclosing handler turns every such failure into `(None, None)`. -/

inductive GpsVal where
  | pynone : GpsVal
  | tup : List ℚ → GpsVal
  | str : String → GpsVal
  | num : ℚ → GpsVal
deriving Repr, DecidableEq

/-- Python `str(...)` of a GPS tag value; numeric and sequence renderings are
display approximations, the pipeline only compares the string case. -/
def gpsValStr : GpsVal → String
  | .pynone => "None"
  | .str s => s
  | .num q => if q.den = 1 then toString q.num else toString q.num ++ "/" ++ toString q.den
  | .tup l => "(" ++ String.intercalate ", " (l.map (fun q => toString q.num)) ++ ")"

/-- The inner `convert_coord`: a 3-element sequence or a comma-separated
3-number string becomes degrees + minutes/60 + seconds/3600; any other
string (or a bare number) falls through to `float(coord)`; too-short
sequences raise IndexError (`none`), `None` raises TypeError (`none`). -/
def convert_coord : GpsVal → Option ℚ
  | .tup l =>
      match l with
      | d :: m :: s :: _ => some (d + m / 60 + s / 3600)
      | _ => none
  | .str s =>
      match splitStr s ',' with
      | [a, b, c] => do
          pure ((← pyFloat a) + (← pyFloat b) / 60 + (← pyFloat c) / 3600)
      | _ => pyFloat s
  | .num q => some q
  | .pynone => none

/-- The four values handed to `convert_gps_coordinates` by the pipeline
(keys GPSLatitude, GPSLatitudeRef, GPSLongitude, GPSLongitudeRef). -/
structure GpsArgs where
  latitude : GpsVal
  latRef : GpsVal
  longitude : GpsVal
  lonRef : GpsVal
deriving Repr, DecidableEq

/-- `convert_gps_coordinates`: convert both coordinates, negate latitude
unless `str(lat_ref).upper() == "N"` and longitude unless the reference
upper-cases to `"E"`; every failure inside yields `(None, None)`. -/
def convert_gps_coordinates (g : GpsArgs) : Option ℚ × Option ℚ :=
  match convert_coord g.latitude, convert_coord g.longitude with
  | some lat0, some lon0 =>
      let lat := if upperStr (gpsValStr g.latRef) = "N" then lat0 else -lat0
      let lon := if upperStr (gpsValStr g.lonRef) = "E" then lon0 else -lon0
      (some lat, some lon)
  | _, _ => (none, none)

/-! ### Device Fingerprint Matcher (`extract_phone_info`, aim.py 107-129)

The ten brand regexes share one shape: a case-insensitive brand literal, a
separator class repeated, then a single capture group made of literals and
character classes whose adjacent classes are disjoint — so greedy
deterministic matching reproduces `re.search` with `re.IGNORECASE`,
including the leftmost-position rule and the greedy capture. -/

inductive RItem where
  | lit : String → RItem
  | star : (Char → Bool) → RItem
  | plus : (Char → Bool) → RItem

def wsP (c : Char) : Bool := c.isWhitespace
def digitP (c : Char) : Bool := c.isDigit
def alphaP (c : Char) : Bool := c.isAlpha
def alnumP (c : Char) : Bool := c.isAlphanum
def sepP (c : Char) : Bool := c = '-' || c.isWhitespace

def ciEq (a b : Char) : Bool := a.toLower == b.toLower

def matchLit : List Char → List Char → Option (List Char)
  | [], cs => some cs
  | _ :: _, [] => none
  | l :: ls, c :: cs => if ciEq l c then matchLit ls cs else none

def matchItem (it : RItem) (cs : List Char) : Option (List Char) :=
  match it with
  | .lit s => matchLit s.data cs
  | .star p => some (cs.dropWhile p)
  | .plus p =>
      match cs.takeWhile p with
      | [] => none
      | _ => some (cs.dropWhile p)

def matchItems : List RItem → List Char → Option (List Char)
  | [], cs => some cs
  | it :: rest, cs => (matchItem it cs).bind (matchItems rest)

/-- One table entry: the part before the capture group, and the group. -/
structure PhonePat where
  pre : List RItem
  grp : List RItem

/-- Try to match at the start of `cs`; on success return the capture-group
text (the segment the group items consumed). -/
def tryAt (pat : PhonePat) (cs : List Char) : Option String :=
  match matchItems pat.pre cs with
  | none => none
  | some r1 =>
      match matchItems pat.grp r1 with
      | none => none
      | some r2 => some (String.mk (r1.take (r1.length - r2.length)))

/-- `re.search`: try every start position left to right. -/
def searchPat (pat : PhonePat) : List Char → Option String
  | [] => tryAt pat []
  | cs@(_ :: rest) =>
      match tryAt pat cs with
      | some cap => some cap
      | none => searchPat pat rest

/-- The `phone_db` table in source order. -/
def phone_db : List (String × PhonePat) :=
  [("iPhone", ⟨[.lit "iPhone", .star wsP], [.plus digitP, .star alphaP]⟩),
   ("iPad", ⟨[.lit "iPad", .star wsP], [.plus digitP, .star alphaP]⟩),
   ("Samsung", ⟨[.lit "Samsung", .star sepP],
      [.lit "Galaxy", .star wsP, .plus alnumP]⟩),
   ("Huawei", ⟨[.lit "Huawei", .star sepP], [.plus alnumP]⟩),
   ("Xiaomi", ⟨[.lit "Xiaomi", .star sepP],
      [.lit "Mi", .star wsP, .plus alnumP]⟩),
   ("Google", ⟨[.lit "Google", .star sepP],
      [.lit "Pixel", .star wsP, .plus digitP]⟩),
   ("OnePlus", ⟨[.lit "OnePlus", .star sepP], [.plus digitP, .star alphaP]⟩),
   ("Sony", ⟨[.lit "Sony", .star sepP],
      [.lit "Xperia", .star wsP, .plus alnumP]⟩),
   ("LG", ⟨[.lit "LG", .star sepP], [.plus alnumP]⟩),
   ("Motorola", ⟨[.lit "Moto", .star sepP], [.plus alnumP]⟩)]

/-- Walk the table in order; first matching pattern wins.  Every pattern in
the table has a capture group, so `match.groups()` is always truthy and the
reported model is the captured substring. -/
def phoneFirst (model_str : String) :
    List (String × PhonePat) → Option String × String
  | [] => (none, model_str)
  | (brand, pat) :: rest =>
      match searchPat pat model_str.data with
      | some cap => (some brand, cap)
      | none => phoneFirst model_str rest

def extract_phone_info (model_str : String) : Option String × String :=
  phoneFirst model_str phone_db

/-- OS inference at aim.py lines 334-340: start from "Unknown", Apple
brands map to iOS, the other listed brands to Android. -/
def osForBrand (b : String) : String :=
  if ["iphone", "ipad"].contains (lowerStr b) then "iOS"
  else if ["samsung", "huawei", "xiaomi", "google", "oneplus", "sony",
      "lg", "motorola"].contains (lowerStr b) then "Android"
  else "Unknown"

/-! ### EXIF values, image info, environment

`PyVal` is the closed set of value shapes the pipeline inspects on EXIF
tags: strings, integers, floats, `(num, den)` rational tuples, raw bytes,
and the two legacy shapes of the GPSInfo block.  External effects live in
`Env`: `os.stat`, the raw file bytes, the PIL decode, the `hashlib` digest
functions, UTF-8 byte decoding, `datetime` timestamp rendering, the
`exifread` tag set, the optional cv2 ELA check, and `platform` queries. -/

inductive PyVal where
  | str : String → PyVal
  | int : Int → PyVal
  | num : ℚ → PyVal
  | rat : Int → Int → PyVal
  | bytes : List Nat → PyVal
  | gpsDict : List (Nat × GpsVal) → PyVal
  | gpsTup : List GpsVal → PyVal
deriving Repr, DecidableEq

/-- Python `str(...)` of an EXIF value; non-string renderings are display
approximations, the pipeline logic only branches on the constructors. -/
def pyStr : PyVal → String
  | .str s => s
  | .int n => toString n
  | .num q => if q.den = 1 then toString q.num else toString q.num ++ "/" ++ toString q.den
  | .rat n d => "(" ++ toString n ++ ", " ++ toString d ++ ")"
  | .bytes _ => "bytes"
  | .gpsDict _ => "dict"
  | .gpsTup _ => "tuple"

structure ImgInfo where
  format : String
  /-- `Image.MIME.get(img.format, "Unknown")`, looked up in the PIL table. -/
  mimeKnown : Option String
  width : Nat
  height : Nat
  mode : String
  /-- `getattr(img, "bits", "Unknown")`. -/
  bits : Option Nat
  /-- `getattr(img, "is_animated", False)`. -/
  isAnimated : Bool
  /-- `len(img.info)`. -/
  infoCount : Nat
  /-- `img.info.get("compression")`; absent and `None` coincide here. -/
  compression : Option String
  /-- whether `"transparency" in img.info`. -/
  transparencyInInfo : Bool
  /-- `img._getexif()` when the attribute exists and is not `None`:
  name-resolved tag mapping (ID-to-name resolution through the external
  `ExifTags.TAGS` table is absorbed into the environment). -/
  exif : Option (List (String × PyVal))

structure Env where
  path : String
  cwd : String
  stat_size : Nat
  stat_ctime : Int
  stat_mtime : Int
  stat_atime : Int
  stat_mode : Nat
  stat_ino : Nat
  stat_dev : Nat
  /-- `os.stat` outcome; the stat fields above are only read on success. -/
  statResult : Except String Unit
  /-- `open(path, "rb")` and reading the raw bytes. -/
  readBytes : Except String (List Nat)
  /-- `Image.open(path)` through the primary PIL decoder. -/
  openImg : Except String ImgInfo
  /-- `hashlib` digest bytes per algorithm name of an absorbed stream. -/
  digests : String → List Nat → List Nat
  /-- `bytes.decode("utf-8", errors="replace")`. -/
  decodeBytes : List Nat → String
  /-- `datetime.fromtimestamp(t).strftime("%B %d, %Y at %H:%M:%S")`. -/
  formatTime : Int → String
  /-- second decoder: `exifread.process_file` tag names to `str(tag)`. -/
  exifreadTags : Except String (List (String × String))
  /-- cv2/numpy ELA check: `some b` when it ran (`b` = mean above 15),
  `none` when the bare `except: pass` swallowed a failure. -/
  elaHigh : Option Bool
  pyVersion : String
  sysName : String
  osVersion : String
  processor : String
  /-- `traceback.format_exc()` text for the active exception. -/
  traceText : String

/-! ### Record model -/

inductive CatVal where
  | flat : List (String × String) → CatVal
  | strList : List String → CatVal
  | strVal : String → CatVal
deriving Repr, DecidableEq

/-- The metadata record: insertion-ordered category mapping. -/
abbrev Rec := List (String × CatVal)

def initRec : Rec :=
  [("⚠️ Warnings", .strList []),
   ("🔒 File Integrity", .flat []),
   ("🕵️‍♂️ Forensic Analysis", .flat [])]

/-- Set one field inside a flat category (`metadata[cat][field] = val`);
the category is always present at every call site of the pipeline. -/
def recFlatSet (m : Rec) (cat field val : String) : Rec :=
  match dictGet m cat with
  | some (.flat fs) => dictSet m cat (.flat (dictSet fs field val))
  | _ => m

/-- `metadata["⚠️ Warnings"].append(w)`. -/
def warnAdd (m : Rec) (w : String) : Rec :=
  match dictGet m "⚠️ Warnings" with
  | some (.strList ws) => dictSet m "⚠️ Warnings" (.strList (ws ++ [w]))
  | _ => m

/-! ### File-system helpers used by the File Information category -/

def basename (path : String) : String :=
  (splitStr path '/').getLastD ""

/-- `os.path.splitext(...)[1]`: the extension of the basename, empty when
the only dots are leading. -/
def splitextExt (path : String) : String :=
  let b := (basename path).data
  let rest := b.drop (b.takeWhile (· = '.')).length
  match splitStr (String.mk rest) '.' with
  | [] => ""
  | [_] => ""
  | parts => "." ++ parts.getLastD ""

/-- `os.path.abspath` restricted to the normalization-free cases the tool
meets: absolute paths stay, relative ones are joined to the cwd. -/
def abspath (cwd path : String) : String :=
  if path.startsWith "/" then path else cwd ++ "/" ++ path

/-- `oct(st_mode)[-3:]` for ordinary file modes: last three octal digits. -/
def octLast3 (mode : Nat) : String :=
  toString (mode / 64 % 8) ++ toString (mode / 8 % 8) ++ toString (mode % 8)

def fileInfoFields (env : Env) : List (String × String) :=
  [("File Name", basename env.path),
   ("File Path", abspath env.cwd env.path),
   ("File Extension",
     String.mk (((splitextExt env.path).data.map Char.toUpper).filter
       (fun c => c ≠ '.'))),
   ("File Size", get_human_readable_size env.stat_size),
   ("Created", env.formatTime env.stat_ctime),
   ("Modified", env.formatTime env.stat_mtime),
   ("Accessed", env.formatTime env.stat_atime),
   ("File Permissions", octLast3 env.stat_mode),
   ("Inode Number", toString env.stat_ino),
   ("Device ID", toString env.stat_dev)]

/-! ### Heuristic content scanner (aim.py lines 131-185) -/

/-- `extract_thumbnail`: returns `img.thumbnail` — the bound method object,
truthy exactly when `Image.open` succeeds. -/
def extract_thumbnail (env : Env) : Bool := env.openImg.isOk

def listHasPre : List Nat → List Nat → Bool
  | [], _ => true
  | _ :: _, [] => false
  | p :: ps, b :: bs => p == b && listHasPre ps bs

def bytesContains (p : List Nat) : List Nat → Bool
  | [] => listHasPre p []
  | bs@(_ :: rest) => listHasPre p bs || bytesContains p rest

def strBytes (s : String) : List Nat := s.data.map Char.toNat

def analyze_steganography (env : Env) : String :=
  match env.readBytes with
  | .error _ => "Steganography analysis failed"
  | .ok content =>
      if bytesContains (strBytes "Photoshop") content then
        "Potential Photoshop editing detected"
      else if bytesContains (strBytes "Steg") content ||
          bytesContains (strBytes "steg") content then
        "Possible steganography markers found"
      else if bytesContains (strBytes "LSB") content ||
          bytesContains (strBytes "lsb") content then
        "Possible LSB steganography indicators"
      else "No obvious steganography markers detected"

def detect_tampering_indicators (env : Env) : List String :=
  match env.openImg with
  | .error e => ["Tampering detection error: " ++ e]
  | .ok img =>
      let l1 : List String :=
        if img.infoCount > 10 then ["Multiple metadata blocks detected"] else []
      let l2 : List String :=
        match img.compression with
        | some c =>
            if c ≠ "jpeg" ∧ c ≠ "raw" then ["Unusual compression: " ++ c] else []
        | none => []
      let l3 : List String :=
        match env.elaHigh with
        | some true =>
            ["High Error Level Analysis (ELA) - Possible manipulation"]
        | _ => []
      l1 ++ l2 ++ l3

/-- The Python value of the tampering field is the indicator list itself, or
a fixed string when empty; rendered to the display string here. -/
def tamperRender (l : List String) : String :=
  if l.isEmpty then "No obvious tampering indicators detected"
  else "[" ++ String.intercalate ", " l ++ "]"

/-! ### EXIF extraction, GPS, date, camera, additional stages -/

/-- The `exif_data` loop: byte values are decoded (UTF-8, replace). -/
def exifDataOf (env : Env) (img : ImgInfo) : List (String × PyVal) :=
  match img.exif with
  | none => []
  | some ts =>
      ts.map (fun kv =>
        match kv.2 with
        | .bytes bs => (kv.1, .str (env.decodeBytes bs))
        | v => (kv.1, v))

def lookupVal (l : List (String × PyVal)) (k : String) : Option PyVal :=
  dictGet l k

/-- Normalize the two legacy GPSInfo shapes to one tag-number mapping
(aim.py lines 266-282); a sequence shorter than five raises IndexError.
A string or bytes value is itself a Python sequence and is indexed
accordingly; numbers are not subscriptable (TypeError). -/
def normalizeGps (v : PyVal) : Except String (List (Nat × GpsVal)) :=
  let fromSeq (l : List GpsVal) : Except String (List (Nat × GpsVal)) :=
    if h5 : 5 ≤ l.length then
      let base := [(1, l.get ⟨1, by omega⟩), (2, l.get ⟨2, by omega⟩),
        (3, l.get ⟨3, by omega⟩), (4, l.get ⟨4, by omega⟩)]
      let base := if h : 5 < l.length then base ++ [(5, l.get ⟨5, h⟩)] else base
      let base := if h : 6 < l.length then base ++ [(6, l.get ⟨6, h⟩)] else base
      let base := if h : 16 < l.length then base ++ [(16, l.get ⟨16, h⟩)] else base
      .ok base
    else .error "tuple index out of range"
  match v with
  | .gpsDict entries => .ok entries
  | .gpsTup l => fromSeq l
  | .str s => fromSeq (s.data.map (fun c => GpsVal.str (String.mk [c])))
  | .bytes bs => fromSeq (bs.map (fun b => GpsVal.num b))
  | _ => .error "object is not subscriptable"

/-- dict.get with default `None`. -/
def gpsGet (d : List (Nat × GpsVal)) (k : Nat) : GpsVal :=
  (dictGet d k).getD .pynone

/-- The GPS stage body (aim.py lines 262-304): returns the `gps_info`
fields plus an optional warning from the stage-local handler. -/
def gpsStageData (exifd : List (String × PyVal)) :
    List (String × String) × Option String :=
  match lookupVal exifd "GPSInfo" with
  | none => ([], none)
  | some gv =>
      match normalizeGps gv with
      | .error e => ([], some ("GPS data processing error: " ++ e))
      | .ok gdict =>
          let args : GpsArgs :=
            ⟨gpsGet gdict 2, gpsGet gdict 1, gpsGet gdict 4, gpsGet gdict 3⟩
          match convert_gps_coordinates args with
          | (some lat, some lon) =>
              let base :=
                [("Latitude", format6 lat ++ "°"),
                 ("Longitude", format6 lon ++ "°"),
                 ("Google Maps Link",
                   "https://maps.google.com/?q=" ++ format6 lat ++ "," ++
                     format6 lon),
                 ("OpenStreetMap Link",
                   "https://www.openstreetmap.org/?mlat=" ++ format6 lat ++
                     "&mlon=" ++ format6 lon)]
              let base :=
                match dictGet gdict 5 with
                | some a => base ++ [("Altitude", gpsValStr a ++ " meters")]
                | none => base
              let base :=
                match dictGet gdict 6 with
                | some t => base ++ [("GPS Timestamp", gpsValStr t)]
                | none => base
              let base :=
                match dictGet gdict 16 with
                | some d => base ++ [("Direction", gpsValStr d ++ "°")]
                | none => base
              (base, none)
          | _ => ([], none)

/-- Date stage fields (aim.py lines 309-317). -/
def dateFields (exifd : List (String × PyVal)) : List (String × String) :=
  (match lookupVal exifd "DateTime" with
   | some v => [("Capture Time", format_exif_time (pyStr v))]
   | none => []) ++
  (match lookupVal exifd "DateTimeOriginal" with
   | some v => [("Original Capture Time", format_exif_time (pyStr v))]
   | none => []) ++
  (match lookupVal exifd "DateTimeDigitized" with
   | some v => [("Digitization Time", format_exif_time (pyStr v))]
   | none => []) ++
  (match lookupVal exifd "SubSecTimeOriginal" with
   | some v => [("Subsecond Time", pyStr v)]
   | none => [])

def pyToFloat : PyVal → Option ℚ
  | .int n => some n
  | .num q => some q
  | .str s => pyFloat s
  | _ => none

def exposureStr (v : PyVal) : String :=
  match v with
  | .rat n d => toString n ++ "/" ++ toString d ++ " sec"
  | v => pyStr v ++ " sec"

def apertureStr (v : PyVal) : String :=
  match v with
  | .rat n d =>
      if d = 0 then pyStr (.rat n d)
      else "f/" ++ format1 ((n : ℚ) / (d : ℚ))
  | v =>
      match pyToFloat v with
      | some q => "f/" ++ format1 q
      | none => pyStr v

def focalStr (v : PyVal) : String :=
  match v with
  | .rat n d =>
      if d = 0 then pyStr (.rat n d)
      else format1 ((n : ℚ) / (d : ℚ)) ++ " mm"
  | v =>
      match pyToFloat v with
      | some q => format1 q ++ " mm"
      | none => pyStr v

/-- The flash lookup table (aim.py lines 377-405). -/
def flash_info : List (Int × String) :=
  [(0x0, "No Flash"),
   (0x1, "Fired"),
   (0x5, "Fired, Return not detected"),
   (0x7, "Fired, Return detected"),
   (0x8, "On, Did not fire"),
   (0x9, "On, Fired"),
   (0xD, "On, Return not detected"),
   (0xF, "On, Return detected"),
   (0x10, "Off, Did not fire"),
   (0x14, "Off, Did not fire, Return not detected"),
   (0x18, "Auto, Did not fire"),
   (0x19, "Auto, Fired"),
   (0x1D, "Auto, Fired, Return not detected"),
   (0x1F, "Auto, Fired, Return detected"),
   (0x20, "No flash function"),
   (0x30, "Off, No flash function"),
   (0x41, "Fired, Red-eye reduction"),
   (0x45, "Fired, Red-eye reduction, Return not detected"),
   (0x47, "Fired, Red-eye reduction, Return detected"),
   (0x49, "On, Red-eye reduction"),
   (0x4D, "On, Red-eye reduction, Return not detected"),
   (0x4F, "On, Red-eye reduction, Return detected"),
   (0x50, "Off, Red-eye reduction"),
   (0x58, "Auto, Did not fire, Red-eye reduction"),
   (0x59, "Auto, Fired, Red-eye reduction"),
   (0x5D, "Auto, Fired, Red-eye reduction, Return not detected"),
   (0x5F, "Auto, Fired, Red-eye reduction, Return detected")]

/-- `flash_info.get(value, f"Unknown (Value: {value})")`. -/
def flashDisplay (v : PyVal) : String :=
  match v with
  | .int n => (dictGet flash_info n).getD ("Unknown (Value: " ++ toString n ++ ")")
  | v => "Unknown (Value: " ++ pyStr v ++ ")"

def cameraSettings (exifd : List (String × PyVal)) : List (String × String) :=
  (match lookupVal exifd "ExposureTime" with
   | some v => [("Exposure Time", exposureStr v)]
   | none => []) ++
  (match lookupVal exifd "FNumber" with
   | some v => [("Aperture", apertureStr v)]
   | none => []) ++
  (match lookupVal exifd "ISOSpeedRatings" with
   | some v => [("ISO Speed", pyStr v)]
   | none => []) ++
  (match lookupVal exifd "FocalLength" with
   | some v => [("Focal Length", focalStr v)]
   | none => []) ++
  (match lookupVal exifd "Flash" with
   | some v => [("Flash", flashDisplay v)]
   | none => [])

/-- The Device Information side effect of the Model tag (aim.py 328-340):
when the model matches a phone pattern the category is synthesized with the
inferred operating system, otherwise the record is untouched. -/
def deviceStep (exifd : List (String × PyVal)) (m : Rec) : Rec :=
  match lookupVal exifd "Model" with
  | some v =>
      match extract_phone_info (pyStr v) with
      | (some brand, mdl) =>
          dictSet m "📱 Device Information"
            (.flat [("Device Type", "Smartphone"), ("Brand", brand),
              ("Model", mdl), ("Operating System", osForBrand brand)])
      | (none, _) => m
  | none => m

/-- The `camera_info` entries up to and including Software. -/
def cameraInfoBase (exifd : List (String × PyVal)) : List (String × String) :=
  (match lookupVal exifd "Make" with
   | some v => [("Manufacturer", pyStr v)]
   | none => []) ++
  (match lookupVal exifd "Model" with
   | some v => [("Model", pyStr v)]
   | none => []) ++
  (match lookupVal exifd "Software" with
   | some v => [("Software", pyStr v)]
   | none => [])

/-- The EXIF Version entry: a str value is kept, a bytes value is decoded
strictly as ASCII, raising on non-ASCII bytes. -/
def exifVersionEntry (exifd : List (String × PyVal)) :
    Except String (List (String × String)) :=
  match lookupVal exifd "ExifVersion" with
  | some (.bytes bs) =>
      if bs.all (· < 128) then
        .ok [("EXIF Version", String.mk (bs.map Char.ofNat))]
      else .error "ascii codec cannot decode"
  | some v => .ok [("EXIF Version", pyStr v)]
  | none => .ok []

/-- Camera stage (aim.py lines 322-408).  Builds `camera_info`, synthesizes
the Device Information category as a side effect of the Model tag, then
merges camera info and settings into the Camera Information category.
`ExifVersion.decode("ascii")` on non-ASCII bytes raises (in practice the
earlier EXIF loop has already decoded byte values, so that arm is dormant);
the exception leaves the record with the device step applied but no camera
category. -/
def cameraStage (exifd : List (String × PyVal)) (m : Rec) :
    Except (Rec × String) Rec :=
  let m1 := deviceStep exifd m
  match exifVersionEntry exifd with
  | .error e => .error (m1, e)
  | .ok ve =>
      let ci4 :=
        cameraInfoBase exifd ++ ve ++
          (match lookupVal exifd "BodySerialNumber" with
           | some v => [("Camera Serial Number", pyStr v)]
           | none => [])
      let cs := cameraSettings exifd
      .ok (dictSet m1 "📷 Camera Information"
        (if ci4.isEmpty ∧ cs.isEmpty then .strVal "No camera metadata found"
         else .flat (ci4 ++ cs)))

/-- The `interesting_tags` table for the exifread supplement. -/
def interestingTags : List (String × String) :=
  [("Image Orientation", "Orientation"),
   ("EXIF LightSource", "Light Source"),
   ("EXIF ExposureProgram", "Exposure Program"),
   ("EXIF MeteringMode", "Metering Mode"),
   ("EXIF WhiteBalance", "White Balance"),
   ("EXIF SceneCaptureType", "Scene Type"),
   ("EXIF LensModel", "Lens Model"),
   ("EXIF LensSerialNumber", "Lens Serial"),
   ("EXIF BodySerialNumber", "Camera Serial"),
   ("EXIF Contrast", "Contrast"),
   ("EXIF Saturation", "Saturation"),
   ("EXIF Sharpness", "Sharpness"),
   ("EXIF DigitalZoomRatio", "Digital Zoom"),
   ("EXIF ExposureBiasValue", "Exposure Bias"),
   ("EXIF MaxApertureValue", "Max Aperture"),
   ("EXIF SubjectDistance", "Subject Distance"),
   ("EXIF FocalLengthIn35mmFilm", "35mm Equivalent Focal Length")]

def additionalData (tags : List (String × String)) : List (String × String) :=
  interestingTags.filterMap
    (fun kv => (dictGet tags kv.1).map (fun v => (kv.2, v)))

def toolFields (env : Env) : List (String × String) :=
  [("Tool Name", "AIM Forensic Extractor"),
   ("Tool Version", "v1.0"),
   ("Tool Owner", "Sabir Khan"),
   ("Python Version", env.pyVersion),
   ("Operating System", env.sysName),
   ("OS Version", env.osVersion),
   ("Processor", env.processor)]

/-! ### The assembly pipeline (`extract_all_metadata`, aim.py 191-459) -/

/-- The Image Dimensions & Quality fields (aim.py lines 228-238); the
Aspect Ratio entry is the division that raises on a zero height, checked by
the caller before this dict literal is built. -/
def dimsFields (img : ImgInfo) : List (String × String) :=
  [("Width", toString img.width ++ " pixels"),
   ("Height", toString img.height ++ " pixels"),
   ("Megapixels",
     format2 (((img.width * img.height : Nat) : ℚ) / 1000000) ++ " MP"),
   ("Aspect Ratio",
     format2 ((img.width : ℚ) / (img.height : ℚ)) ++ ":1"),
   ("Color Mode", img.mode),
   ("Bit Depth",
     match img.bits with | some b => toString b | none => "Unknown"),
   ("Is Animated", if img.isAnimated then "True" else "False"),
   ("Has Transparency",
     if img.mode = "RGBA" ∨ img.mode = "LA" ∨
         (img.mode = "P" ∧ img.transparencyInInfo) then "Yes" else "No"),
   ("Compression", img.compression.getD "Unknown")]

/-- Dimensions, forensic scan, GPS and date stages (aim.py lines 228-319):
all total, each degrades to placeholders or a warning. -/
def dimsAndMeta (env : Env) (img : ImgInfo) (exifd : List (String × PyVal))
    (m : Rec) : Rec :=
  let m := dictSet m "📐 Image Dimensions & Quality" (.flat (dimsFields img))
  let m := recFlatSet m "🕵️‍♂️ Forensic Analysis" "Thumbnail Present"
    (if extract_thumbnail env then "Yes" else "No")
  let m := recFlatSet m "🕵️‍♂️ Forensic Analysis" "Steganography Indicators"
    (analyze_steganography env)
  let m := recFlatSet m "🕵️‍♂️ Forensic Analysis" "Tampering Indicators"
    (tamperRender (detect_tampering_indicators env))
  let gps := gpsStageData exifd
  let m := match gps.2 with | some w => warnAdd m w | none => m
  let m := dictSet m "📍 GPS & Location Data"
    (if gps.1.isEmpty then .strVal "No GPS data found" else .flat gps.1)
  let df := dateFields exifd
  dictSet m "🕒 Date & Time Information"
    (if df.isEmpty then .strVal "No date/time metadata found" else .flat df)

/-- The exifread supplement and tool info (aim.py lines 411-452). -/
def finalize (env : Env) (tags : List (String × String)) (m : Rec) : Rec :=
  let ad := additionalData tags
  let m :=
    if ad.isEmpty then m
    else dictSet m "⚙️ Additional EXIF Data" (.flat ad)
  dictSet m "💻 Tool Information" (.flat (toolFields env))

/-- Everything inside and after the `Image.open` context, given a record
that already holds file info and hashes. -/
def afterOpen (env : Env) (img : ImgInfo) (m : Rec) :
    Except (Rec × String) Rec :=
  let m1 := recFlatSet
    (recFlatSet m "📁 File Information" "File Type" img.format)
    "📁 File Information" "MIME Type" (img.mimeKnown.getD "Unknown")
  if img.height = 0 then .error (m1, "division by zero")
  else
    let exifd := exifDataOf env img
    match cameraStage exifd (dimsAndMeta env img exifd m1) with
    | .error p => .error p
    | .ok m2 =>
        match env.exifreadTags with
        | .error e => .error (m2, e)
        | .ok tags => .ok (finalize env tags m2)

/-- The body of the big `try`: on an exception the record mutated so far is
carried along with the message. -/
def extractBody (env : Env) : Except (Rec × String) Rec :=
  match env.statResult with
  | .error e => .error (initRec, e)
  | .ok _ =>
      let m := dictSet initRec "📁 File Information" (.flat (fileInfoFields env))
      let m := dictSet m "🔒 File Integrity"
        (.flat (calculate_file_hashes env.digests env.readBytes))
      match env.openImg with
      | .error e => .error (m, e)
      | .ok img => afterOpen env img m

/-- `extract_all_metadata`: the `except` handler turns any exception into
the Critical Error and Stack Trace entries on the record built so far. -/
def extract_all_metadata (env : Env) : Rec :=
  match extractBody env with
  | .ok m => m
  | .error (m, e) =>
      dictSet
        (dictSet m "❌ Critical Error"
          (.strVal ("Failed to process image: " ++ e)))
        "❌ Stack Trace" (.strVal env.traceText)

/-! ### Concrete environments for counterexamples and witnesses -/

/-- An existing, hashable 3-byte file that the image decoder rejects. -/
def envC1 : Env :=
  { path := "/tmp/broken.jpg"
    cwd := "/tmp"
    stat_size := 3
    stat_ctime := 100
    stat_mtime := 200
    stat_atime := 300
    stat_mode := 33188
    stat_ino := 7
    stat_dev := 5
    statResult := .ok ()
    readBytes := .ok [1, 2, 3]
    openImg := .error "cannot identify image file"
    digests := fun _ bs => bs
    decodeBytes := fun _ => ""
    formatTime := fun t => "t" ++ toString t
    exifreadTags := .ok []
    elaHigh := none
    pyVersion := "3.11.0"
    sysName := "Linux"
    osVersion := "6.0"
    processor := "x86_64"
    traceText := "Traceback (most recent call last): ValueError" }

/-- A decodable image with no EXIF block at all. -/
def imgPlain : ImgInfo :=
  { format := "PNG"
    mimeKnown := some "image/png"
    width := 2
    height := 2
    mode := "RGB"
    bits := some 8
    isAnimated := false
    infoCount := 0
    compression := none
    transparencyInInfo := false
    exif := none }

def envPlain : Env := { envC1 with openImg := .ok imgPlain }

/-- A decodable image whose Model tag matches the iPhone pattern. -/
def imgPhone : ImgInfo :=
  { imgPlain with exif := some [("Model", .str "iPhone13Pro")] }

def envPhone : Env := { envC1 with openImg := .ok imgPhone }

/-- A decodable image whose Model tag matches no phone pattern. -/
def imgCanon : ImgInfo :=
  { imgPlain with exif := some [("Model", .str "Canon EOS 5D")] }

def envCanon : Env := { envC1 with openImg := .ok imgCanon }

/-! ### Theorems -/

theorem keysOf_dictSet {κ α : Type} [DecidableEq κ] (d : List (κ × α))
    (k : κ) (v : α) :
    keysOf (dictSet d k v) =
      if k ∈ keysOf d then keysOf d else keysOf d ++ [k] := by
  induction d with
  | nil => simp [dictSet, keysOf]
  | cons hd tl ih =>
      obtain ⟨k0, v0⟩ := hd
      by_cases h : k0 = k
      · subst h
        simp [dictSet, keysOf]
      · have hne : ¬(k = k0) := fun hk => h hk.symm
        simp only [dictSet, if_neg h, keysOf, List.map_cons, List.mem_cons,
          hne, false_or]
        rw [show keysOf (dictSet tl k v) = List.map Prod.fst (dictSet tl k v)
          from rfl] at ih
        rw [ih]
        by_cases hm : k ∈ List.map Prod.fst tl <;> simp [hm, keysOf]

theorem mem_keysOf_dictSet_of_mem {κ α : Type} [DecidableEq κ]
    {d : List (κ × α)} {k : κ} (k2 : κ) (v : α) (h : k ∈ keysOf d) :
    k ∈ keysOf (dictSet d k2 v) := by
  rw [keysOf_dictSet]
  split <;> simp [h]

theorem mem_keysOf_dictSet_self {κ α : Type} [DecidableEq κ]
    (d : List (κ × α)) (k : κ) (v : α) : k ∈ keysOf (dictSet d k v) := by
  rw [keysOf_dictSet]
  split <;> simp_all

theorem not_mem_keysOf_dictSet {κ α : Type} [DecidableEq κ]
    {d : List (κ × α)} {k k2 : κ} (v : α) (hne : k ≠ k2)
    (h : k ∉ keysOf d) : k ∉ keysOf (dictSet d k2 v) := by
  rw [keysOf_dictSet]
  split <;> simp_all

theorem mem_keysOf_dictSet_elim {κ α : Type} [DecidableEq κ]
    {d : List (κ × α)} {k k2 : κ} {v : α}
    (h : k ∈ keysOf (dictSet d k2 v)) : k ∈ keysOf d ∨ k = k2 := by
  rw [keysOf_dictSet] at h
  by_cases hm : k2 ∈ keysOf d
  · rw [if_pos hm] at h; exact Or.inl h
  · rw [if_neg hm] at h
    rcases List.mem_append.mp h with h | h
    · exact Or.inl h
    · simp at h; exact Or.inr h

theorem mem_keysOf_of_dictGet_some {κ α : Type} [DecidableEq κ]
    {d : List (κ × α)} {k : κ} {v : α} (h : dictGet d k = some v) :
    k ∈ keysOf d := by
  induction d with
  | nil => simp [dictGet] at h
  | cons hd tl ih =>
      obtain ⟨k0, v0⟩ := hd
      by_cases h0 : k0 = k
      · subst h0; simp [keysOf]
      · rw [dictGet, if_neg h0] at h
        simp only [keysOf, List.map_cons, List.mem_cons]
        exact Or.inr (ih h)

theorem keysOf_dictSet_of_mem {κ α : Type} [DecidableEq κ]
    {d : List (κ × α)} {k : κ} (v : α) (h : k ∈ keysOf d) :
    keysOf (dictSet d k v) = keysOf d := by
  rw [keysOf_dictSet, if_pos h]

theorem keysOf_recFlatSet (m : Rec) (c f v : String) :
    keysOf (recFlatSet m c f v) = keysOf m := by
  unfold recFlatSet
  cases hg : dictGet m c with
  | none => rfl
  | some cv =>
      cases cv with
      | flat fs => exact keysOf_dictSet_of_mem _ (mem_keysOf_of_dictGet_some hg)
      | strList _ => rfl
      | strVal _ => rfl

theorem keysOf_warnAdd (m : Rec) (w : String) :
    keysOf (warnAdd m w) = keysOf m := by
  unfold warnAdd
  cases hg : dictGet m "⚠️ Warnings" with
  | none => rfl
  | some cv =>
      cases cv with
      | flat _ => rfl
      | strList ws => exact keysOf_dictSet_of_mem _ (mem_keysOf_of_dictGet_some hg)
      | strVal _ => rfl

/-! #### Key tracking through the pipeline stages -/

theorem mem_keysOf_dimsAndMeta (env : Env) (img : ImgInfo)
    (exifd : List (String × PyVal)) (m : Rec) (k : String)
    (h : k ∈ keysOf m) : k ∈ keysOf (dimsAndMeta env img exifd m) := by
  simp only [dimsAndMeta]
  apply mem_keysOf_dictSet_of_mem
  apply mem_keysOf_dictSet_of_mem
  cases hg : (gpsStageData exifd).2 with
  | none =>
      rw [keysOf_recFlatSet, keysOf_recFlatSet, keysOf_recFlatSet]
      exact mem_keysOf_dictSet_of_mem _ _ h
  | some w =>
      rw [keysOf_warnAdd, keysOf_recFlatSet, keysOf_recFlatSet,
        keysOf_recFlatSet]
      exact mem_keysOf_dictSet_of_mem _ _ h

theorem keysOf_dimsAndMeta_sub (env : Env) (img : ImgInfo)
    (exifd : List (String × PyVal)) (m : Rec) (k : String)
    (h : k ∈ keysOf (dimsAndMeta env img exifd m)) :
    k ∈ keysOf m ∨ k ∈ ["📐 Image Dimensions & Quality",
      "📍 GPS & Location Data", "🕒 Date & Time Information"] := by
  simp only [dimsAndMeta] at h
  rcases mem_keysOf_dictSet_elim h with h | h
  · rcases mem_keysOf_dictSet_elim h with h | h
    · cases hg : (gpsStageData exifd).2 with
      | none =>
          rw [hg, keysOf_recFlatSet, keysOf_recFlatSet, keysOf_recFlatSet]
            at h
          rcases mem_keysOf_dictSet_elim h with h | h
          · exact Or.inl h
          · exact Or.inr (by simp [h])
      | some w =>
          rw [hg, keysOf_warnAdd, keysOf_recFlatSet, keysOf_recFlatSet,
            keysOf_recFlatSet] at h
          rcases mem_keysOf_dictSet_elim h with h | h
          · exact Or.inl h
          · exact Or.inr (by simp [h])
    · exact Or.inr (by simp [h])
  · exact Or.inr (by simp [h])

theorem mem_keysOf_deviceStep (exifd : List (String × PyVal)) (m : Rec)
    (k : String) (h : k ∈ keysOf m) : k ∈ keysOf (deviceStep exifd m) := by
  unfold deviceStep
  split
  · split
    · exact mem_keysOf_dictSet_of_mem _ _ h
    · exact h
  · exact h

theorem keysOf_deviceStep_sub (exifd : List (String × PyVal)) (m : Rec)
    (k : String) (h : k ∈ keysOf (deviceStep exifd m)) :
    k ∈ keysOf m ∨ k = "📱 Device Information" := by
  unfold deviceStep at h
  split at h
  · split at h
    · exact mem_keysOf_dictSet_elim h
    · exact Or.inl h
  · exact Or.inl h

theorem deviceStep_of_no_brand (exifd : List (String × PyVal)) (m : Rec)
    (v : PyVal) (hv : lookupVal exifd "Model" = some v)
    (hb : (extract_phone_info (pyStr v)).1 = none) :
    deviceStep exifd m = m := by
  unfold deviceStep
  rcases hp : extract_phone_info (pyStr v) with ⟨b, mdl⟩
  rw [hp] at hb
  simp only [hv, hp]
  cases b with
  | none => rfl
  | some brand => exact absurd hb (by simp)

theorem deviceStep_of_brand (exifd : List (String × PyVal)) (m : Rec)
    (v : PyVal) (b : String) (hv : lookupVal exifd "Model" = some v)
    (hb : (extract_phone_info (pyStr v)).1 = some b) :
    "📱 Device Information" ∈ keysOf (deviceStep exifd m) := by
  unfold deviceStep
  rcases hp : extract_phone_info (pyStr v) with ⟨b0, mdl⟩
  rw [hp] at hb
  simp only [hv, hp]
  cases b0 with
  | none => exact absurd hb (by simp)
  | some brand => exact mem_keysOf_dictSet_self _ _ _

/-- Every outcome of the camera stage is the device step followed either by
the ascii-decode exception or by setting the camera category. -/
theorem cameraStage_shape (exifd : List (String × PyVal)) (m : Rec) :
    (∃ msg, cameraStage exifd m = .error (deviceStep exifd m, msg)) ∨
    (∃ cv, cameraStage exifd m =
      .ok (dictSet (deviceStep exifd m) "📷 Camera Information" cv)) := by
  unfold cameraStage
  cases hv : exifVersionEntry exifd with
  | error e => exact Or.inl ⟨e, rfl⟩
  | ok ve => exact Or.inr ⟨_, rfl⟩

theorem mem_keysOf_finalize (env : Env) (tags : List (String × String))
    (m : Rec) (k : String) (h : k ∈ keysOf m) :
    k ∈ keysOf (finalize env tags m) := by
  simp only [finalize]
  apply mem_keysOf_dictSet_of_mem
  by_cases ha : (additionalData tags).isEmpty
  · rw [if_pos ha]; exact h
  · rw [if_neg ha]; exact mem_keysOf_dictSet_of_mem _ _ h

theorem keysOf_finalize_sub (env : Env) (tags : List (String × String))
    (m : Rec) (k : String) (h : k ∈ keysOf (finalize env tags m)) :
    k ∈ keysOf m ∨ k ∈ ["⚙️ Additional EXIF Data", "💻 Tool Information"] := by
  simp only [finalize] at h
  rcases mem_keysOf_dictSet_elim h with h | h
  · by_cases ha : (additionalData tags).isEmpty
    · rw [if_pos ha] at h; exact Or.inl h
    · rw [if_neg ha] at h
      rcases mem_keysOf_dictSet_elim h with h | h
      · exact Or.inl h
      · exact Or.inr (by simp [h])
  · exact Or.inr (by simp [h])

theorem afterOpen_keeps (env : Env) (img : ImgInfo) (m : Rec) (k : String)
    (h : k ∈ keysOf m) :
    (∀ r, afterOpen env img m = .ok r → k ∈ keysOf r) ∧
    (∀ p e, afterOpen env img m = .error (p, e) → k ∈ keysOf p) := by
  simp only [afterOpen]
  set M1 := recFlatSet
    (recFlatSet m "📁 File Information" "File Type" img.format)
    "📁 File Information" "MIME Type" (img.mimeKnown.getD "Unknown") with hM1
  have hk1 : k ∈ keysOf M1 := by
    rw [hM1, keysOf_recFlatSet, keysOf_recFlatSet]; exact h
  by_cases h0 : img.height = 0
  · rw [if_pos h0]
    refine ⟨fun r hr => (by cases hr), fun p e hp => ?_⟩
    injection hp with hpe
    injection hpe with hp1 hp2
    rw [← hp1]
    exact hk1
  · rw [if_neg h0]
    have hk2 := mem_keysOf_dimsAndMeta env img (exifDataOf env img) M1 k hk1
    have hk3 := mem_keysOf_deviceStep (exifDataOf env img) _ k hk2
    rcases cameraStage_shape (exifDataOf env img)
        (dimsAndMeta env img (exifDataOf env img) M1) with ⟨msg, hcs⟩ | ⟨cv, hcs⟩
    · rw [hcs]
      refine ⟨fun r hr => (by cases hr), fun p e hp => ?_⟩
      injection hp with hpe
      injection hpe with hp1 hp2
      rw [← hp1]
      exact hk3
    · rw [hcs]
      have hk4 := mem_keysOf_dictSet_of_mem "📷 Camera Information" cv hk3
      cases he : env.exifreadTags with
      | error e' =>
          refine ⟨fun r hr => (by cases hr), fun p e hp => ?_⟩
          injection hp with hpe
          injection hpe with hp1 hp2
          rw [← hp1]
          exact hk4
      | ok tags =>
          refine ⟨fun r hr => ?_, fun p e hp => (by cases hp)⟩
          injection hr with hr1
          rw [← hr1]
          exact mem_keysOf_finalize env tags _ k hk4

/-- The category keys any stage after a successful image open may add. -/
theorem afterOpen_sub (env : Env) (img : ImgInfo) (m : Rec) (k : String)
    (hnew : k ∉ keysOf m)
    (hk : k ∉ ["📐 Image Dimensions & Quality", "📍 GPS & Location Data",
      "🕒 Date & Time Information", "📱 Device Information",
      "📷 Camera Information", "⚙️ Additional EXIF Data",
      "💻 Tool Information"]) :
    (∀ r, afterOpen env img m = .ok r → k ∉ keysOf r) ∧
    (∀ p e, afterOpen env img m = .error (p, e) → k ∉ keysOf p) := by
  simp only [List.mem_cons, List.not_mem_nil, or_false, not_or] at hk
  obtain ⟨n1, n2, n3, n4, n5, n6, n7⟩ := hk
  simp only [afterOpen]
  set M1 := recFlatSet
    (recFlatSet m "📁 File Information" "File Type" img.format)
    "📁 File Information" "MIME Type" (img.mimeKnown.getD "Unknown") with hM1
  have hk1 : k ∉ keysOf M1 := by
    rw [hM1, keysOf_recFlatSet, keysOf_recFlatSet]; exact hnew
  have hk2 : k ∉ keysOf (dimsAndMeta env img (exifDataOf env img) M1) := by
    intro hc
    rcases keysOf_dimsAndMeta_sub env img (exifDataOf env img) M1 k hc with
      hc | hc
    · exact hk1 hc
    · simp only [List.mem_cons, List.not_mem_nil, or_false] at hc
      rcases hc with hc | hc | hc
      · exact n1 hc
      · exact n2 hc
      · exact n3 hc
  have hk3 : k ∉ keysOf (deviceStep (exifDataOf env img)
      (dimsAndMeta env img (exifDataOf env img) M1)) := by
    intro hc
    rcases keysOf_deviceStep_sub _ _ k hc with hc | hc
    · exact hk2 hc
    · exact n4 hc
  by_cases h0 : img.height = 0
  · rw [if_pos h0]
    refine ⟨fun r hr => (by cases hr), fun p e hp => ?_⟩
    injection hp with hpe
    injection hpe with hp1 hp2
    rw [← hp1]
    exact hk1
  · rw [if_neg h0]
    rcases cameraStage_shape (exifDataOf env img)
        (dimsAndMeta env img (exifDataOf env img) M1) with ⟨msg, hcs⟩ | ⟨cv, hcs⟩
    · rw [hcs]
      refine ⟨fun r hr => (by cases hr), fun p e hp => ?_⟩
      injection hp with hpe
      injection hpe with hp1 hp2
      rw [← hp1]
      exact hk3
    · rw [hcs]
      have hk4 : k ∉ keysOf (dictSet (deviceStep (exifDataOf env img)
          (dimsAndMeta env img (exifDataOf env img) M1))
          "📷 Camera Information" cv) :=
        not_mem_keysOf_dictSet cv n5 hk3
      cases he : env.exifreadTags with
      | error e' =>
          refine ⟨fun r hr => (by cases hr), fun p e hp => ?_⟩
          injection hp with hpe
          injection hpe with hp1 hp2
          rw [← hp1]
          exact hk4
      | ok tags =>
          refine ⟨fun r hr => ?_, fun p e hp => (by cases hp)⟩
          injection hr with hr1
          rw [← hr1]
          intro hc
          rcases keysOf_finalize_sub env tags _ k hc with hc | hc
          · exact hk4 hc
          · simp only [List.mem_cons, List.not_mem_nil, or_false] at hc
            rcases hc with hc | hc
            · exact n6 hc
            · exact n7 hc

/-- With a Model tag whose string matches no phone pattern, no stage adds
the Device Information category. -/
theorem afterOpen_device_none (env : Env) (img : ImgInfo) (m : Rec)
    (v : PyVal) (hv : lookupVal (exifDataOf env img) "Model" = some v)
    (hb : (extract_phone_info (pyStr v)).1 = none)
    (hm : "📱 Device Information" ∉ keysOf m) :
    (∀ r, afterOpen env img m = .ok r →
      "📱 Device Information" ∉ keysOf r) ∧
    (∀ p e, afterOpen env img m = .error (p, e) →
      "📱 Device Information" ∉ keysOf p) := by
  simp only [afterOpen]
  set M1 := recFlatSet
    (recFlatSet m "📁 File Information" "File Type" img.format)
    "📁 File Information" "MIME Type" (img.mimeKnown.getD "Unknown") with hM1
  have hk1 : "📱 Device Information" ∉ keysOf M1 := by
    rw [hM1, keysOf_recFlatSet, keysOf_recFlatSet]; exact hm
  have hk2 : "📱 Device Information" ∉
      keysOf (dimsAndMeta env img (exifDataOf env img) M1) := by
    intro hc
    rcases keysOf_dimsAndMeta_sub env img (exifDataOf env img) M1 _ hc with
      hc | hc
    · exact hk1 hc
    · simp at hc
  have hdev := deviceStep_of_no_brand (exifDataOf env img)
    (dimsAndMeta env img (exifDataOf env img) M1) v hv hb
  by_cases h0 : img.height = 0
  · rw [if_pos h0]
    refine ⟨fun r hr => (by cases hr), fun p e hp => ?_⟩
    injection hp with hpe
    injection hpe with hp1 hp2
    rw [← hp1]
    exact hk1
  · rw [if_neg h0]
    rcases cameraStage_shape (exifDataOf env img)
        (dimsAndMeta env img (exifDataOf env img) M1) with ⟨msg, hcs⟩ | ⟨cv, hcs⟩
    · rw [hcs]
      refine ⟨fun r hr => (by cases hr), fun p e hp => ?_⟩
      injection hp with hpe
      injection hpe with hp1 hp2
      rw [← hp1, hdev]
      exact hk2
    · rw [hcs]
      have hk4 : "📱 Device Information" ∉ keysOf
          (dictSet (deviceStep (exifDataOf env img)
            (dimsAndMeta env img (exifDataOf env img) M1))
            "📷 Camera Information" cv) := by
        rw [hdev]
        exact not_mem_keysOf_dictSet cv (by decide) hk2
      cases he : env.exifreadTags with
      | error e' =>
          refine ⟨fun r hr => (by cases hr), fun p e hp => ?_⟩
          injection hp with hpe
          injection hpe with hp1 hp2
          rw [← hp1]
          exact hk4
      | ok tags =>
          refine ⟨fun r hr => ?_, fun p e hp => (by cases hp)⟩
          injection hr with hr1
          rw [← hr1]
          intro hc
          rcases keysOf_finalize_sub env tags _ _ hc with hc | hc
          · exact hk4 hc
          · simp at hc

/-- With a Model tag that matches a phone pattern, the camera stage always
synthesizes the Device Information category (and it survives all later
stages and the exception handler). -/
theorem afterOpen_device_some (env : Env) (img : ImgInfo) (m : Rec)
    (v : PyVal) (b : String) (h0 : img.height ≠ 0)
    (hv : lookupVal (exifDataOf env img) "Model" = some v)
    (hb : (extract_phone_info (pyStr v)).1 = some b) :
    (∀ r, afterOpen env img m = .ok r →
      "📱 Device Information" ∈ keysOf r) ∧
    (∀ p e, afterOpen env img m = .error (p, e) →
      "📱 Device Information" ∈ keysOf p) := by
  simp only [afterOpen]
  set M1 := recFlatSet
    (recFlatSet m "📁 File Information" "File Type" img.format)
    "📁 File Information" "MIME Type" (img.mimeKnown.getD "Unknown") with hM1
  have hdev := deviceStep_of_brand (exifDataOf env img)
    (dimsAndMeta env img (exifDataOf env img) M1) v b hv hb
  rw [if_neg h0]
  rcases cameraStage_shape (exifDataOf env img)
      (dimsAndMeta env img (exifDataOf env img) M1) with ⟨msg, hcs⟩ | ⟨cv, hcs⟩
  · rw [hcs]
    refine ⟨fun r hr => (by cases hr), fun p e hp => ?_⟩
    injection hp with hpe
    injection hpe with hp1 hp2
    rw [← hp1]
    exact hdev
  · rw [hcs]
    have hk4 := mem_keysOf_dictSet_of_mem "📷 Camera Information" cv hdev
    cases he : env.exifreadTags with
    | error e' =>
        refine ⟨fun r hr => (by cases hr), fun p e hp => ?_⟩
        injection hp with hpe
        injection hpe with hp1 hp2
        rw [← hp1]
        exact hk4
    | ok tags =>
        refine ⟨fun r hr => ?_, fun p e hp => (by cases hp)⟩
        injection hr with hr1
        rw [← hr1]
        exact mem_keysOf_finalize env tags _ _ hk4

theorem foldl_append_chunks (l : List (List Nat)) (acc : List Nat) :
    l.foldl (fun a c => a ++ c) acc = acc ++ l.foldl (fun a c => a ++ c) [] := by
  induction l generalizing acc with
  | nil => simp
  | cons c rest ih =>
      simp only [List.foldl_cons, List.nil_append]
      rw [ih (acc ++ c), ih c, List.append_assoc]

theorem absorbChunks_eq (bs : List Nat) : absorbChunks bs = bs := by
  rw [absorbChunks]
  suffices h : ∀ (n : Nat) (bs : List Nat), bs.length = n →
      (toChunks8192 bs).foldl (fun acc c => acc ++ c) [] = bs from h _ bs rfl
  intro n
  induction n using Nat.strong_induction_on with
  | _ n ih =>
      intro bs hn
      rw [toChunks8192]
      by_cases h : bs = []
      · simp [h]
      · simp only [h, dite_false, List.foldl_cons, List.nil_append]
        rw [foldl_append_chunks]
        have hlen : 0 < bs.length := List.length_pos.mpr h
        have hdrop : (bs.drop 8192).length < n := by
          simp only [List.length_drop]; omega
        rw [ih _ hdrop _ rfl]
        exact List.take_append_drop 8192 bs

theorem mem_bytesToHex_chars (l : List Nat) (c : Char)
    (hc : c ∈ (bytesToHex l).data) : c ∈ ("0123456789abcdef").data := by
  induction l with
  | nil => simp [bytesToHex] at hc
  | cons b rest ih =>
      simp only [bytesToHex, List.foldr_cons] at hc
      rw [List.mem_append] at hc
      rcases hc with hc | hc
      · have h1 : b / 16 % 16 < 16 := Nat.mod_lt _ (by norm_num)
        have h2 : b % 16 < 16 := Nat.mod_lt _ (by norm_num)
        have key : ∀ k : Nat, k < 16 →
            hexDigitChar k ∈ ("0123456789abcdef").data := by
          intro k hk
          interval_cases k <;> decide
        simp only [byteHex, List.mem_cons, List.not_mem_nil, or_false] at hc
        rcases hc with hc | hc
        · exact hc ▸ key _ h1
        · exact hc ▸ key _ h2
      · exact ih (by simpa [bytesToHex] using hc)

theorem phoneFirst_none (s : String) (l : List (String × PhonePat))
    (h : (phoneFirst s l).1 = none) : (phoneFirst s l).2 = s := by
  induction l with
  | nil => rfl
  | cons hd tl ih =>
      obtain ⟨brand, pat⟩ := hd
      unfold phoneFirst at h ⊢
      cases hs : searchPat pat s.data with
      | some cap =>
          try rw [hs] at h
          simp at h
      | none =>
          try rw [hs] at h
          exact ih h

theorem phoneFirst_mem (s : String) (l : List (String × PhonePat))
    (b : String) (h : (phoneFirst s l).1 = some b) : b ∈ l.map Prod.fst := by
  induction l with
  | nil => simp [phoneFirst] at h
  | cons hd tl ih =>
      obtain ⟨brand, pat⟩ := hd
      unfold phoneFirst at h
      cases hs : searchPat pat s.data with
      | some cap =>
          try rw [hs] at h
          simp at h
          simp [h]
      | none =>
          try rw [hs] at h
          simp only [List.map_cons, List.mem_cons]
          exact Or.inr (ih h)

/-- The body never produces the error categories; they exist only when the
handler adds them. -/
theorem extractBody_no_new_keys (env : Env) (k : String)
    (hk : k ∉ ["⚠️ Warnings", "🔒 File Integrity", "🕵️‍♂️ Forensic Analysis",
      "📁 File Information", "📐 Image Dimensions & Quality",
      "📍 GPS & Location Data", "🕒 Date & Time Information",
      "📱 Device Information", "📷 Camera Information",
      "⚙️ Additional EXIF Data", "💻 Tool Information"]) :
    (∀ r, extractBody env = .ok r → k ∉ keysOf r) ∧
    (∀ p e, extractBody env = .error (p, e) → k ∉ keysOf p) := by
  simp only [List.mem_cons, List.not_mem_nil, or_false, not_or] at hk
  obtain ⟨nW, nI, nF, nFI, nD, nG, nT, nDev, nCam, nAdd, nTool⟩ := hk
  have hinit : k ∉ keysOf initRec := by
    simp only [initRec, keysOf, List.map_cons, List.map_nil, List.mem_cons,
      List.not_mem_nil, or_false, not_or]
    exact ⟨nW, nI, nF⟩
  simp only [extractBody]
  cases hstat : env.statResult with
  | error e =>
      refine ⟨fun r hr => (by cases hr), fun p e hp => ?_⟩
      injection hp with hpe
      injection hpe with hp1 hp2
      rw [← hp1]
      exact hinit
  | ok u =>
      have hm2 : k ∉ keysOf (dictSet
          (dictSet initRec "📁 File Information" (.flat (fileInfoFields env)))
          "🔒 File Integrity"
          (.flat (calculate_file_hashes env.digests env.readBytes))) :=
        not_mem_keysOf_dictSet _ nI (not_mem_keysOf_dictSet _ nFI hinit)
      cases hopen : env.openImg with
      | error e =>
          refine ⟨fun r hr => (by cases hr), fun p e hp => ?_⟩
          injection hp with hpe
          injection hpe with hp1 hp2
          rw [← hp1]
          exact hm2
      | ok img =>
          exact afterOpen_sub env img _ k hm2
            (by simp only [List.mem_cons, List.not_mem_nil, or_false, not_or]
                exact ⟨nD, nG, nT, nDev, nCam, nAdd, nTool⟩)

/-- C3 (counterexample): `calculate_file_hashes` populates six algorithm
keys (MD5, SHA1, SHA256, SHA512, BLAKE2b, BLAKE2s), not the five the claim
states — shown at the concrete input of an empty file. -/
theorem C3_counterexample :
    (calculate_file_hashes (fun _ bs => bs) (.ok [])).map Prod.fst =
      ["MD5", "SHA1", "SHA256", "SHA512", "BLAKE2b", "BLAKE2s"] ∧
    ((calculate_file_hashes (fun _ bs => bs) (.ok [])).map Prod.fst).length ≠ 5 := by
  constructor
  · rfl
  · intro h
    simp [calculate_file_hashes, hashNames] at h

/-- C3 (amended): the hash set always has exactly the six fixed algorithm
keys in order; on success each value is the lowercase hex digest of the
whole file bytes, even though the definition absorbs them in a streaming
pass of 8 KiB chunks; on I/O failure every algorithm maps to the same
"Error: message" string. -/
theorem C3_amended :
    (∀ (digest : String → List Nat → List Nat) (bs : List Nat),
      calculate_file_hashes digest (.ok bs) =
        hashNames.map (fun n => (n, bytesToHex (digest n bs)))) ∧
    (∀ (digest : String → List Nat → List Nat) (e : String),
      calculate_file_hashes digest (.error e) =
        hashNames.map (fun n => (n, "Error: " ++ e))) ∧
    (∀ (l : List Nat) (c : Char), c ∈ (bytesToHex l).data →
      c ∈ ("0123456789abcdef").data) ∧
    hashNames.length = 6 := by
  refine ⟨?_, ?_, mem_bytesToHex_chars, rfl⟩
  · intro digest bs
    simp only [calculate_file_hashes, absorbChunks_eq]
  · intro digest e
    rfl

/-- C3 witness: the amended theorem evaluated at concrete digests, bytes
and error message. -/
theorem C3_witness :
    calculate_file_hashes (fun _ bs => bs) (.ok [0, 255]) =
      [("MD5", "00ff"), ("SHA1", "00ff"), ("SHA256", "00ff"),
       ("SHA512", "00ff"), ("BLAKE2b", "00ff"), ("BLAKE2s", "00ff")] ∧
    calculate_file_hashes (fun _ bs => bs) (.error "No such file") =
      [("MD5", "Error: No such file"), ("SHA1", "Error: No such file"),
       ("SHA256", "Error: No such file"), ("SHA512", "Error: No such file"),
       ("BLAKE2b", "Error: No such file"),
       ("BLAKE2s", "Error: No such file")] ∧
    'f' ∈ ("0123456789abcdef").data := by
  refine ⟨?_, ?_, C3_amended.2.2.1 [255] 'f' (by decide)⟩
  · rw [C3_amended.1 (fun _ bs => bs) [0, 255]]
    rfl
  · rw [C3_amended.2.1 (fun _ bs => bs) "No such file"]
    rfl

/-- C5 (counterexample): the code strips surrounding whitespace before
matching, so an unmatched input with padding is not returned unchanged. -/
theorem C5_counterexample :
    format_exif_time " garbage " = "garbage" ∧
      format_exif_time " garbage " ≠ " garbage " := by
  constructor
  · decide
  · decide

/-- C5 (amended): the colon, dash and slash separated patterns are tried in
order and all three example timestamps normalize to the long form; an input
matching none of the three patterns is returned stripped of surrounding
whitespace but otherwise unchanged (and the function is total). -/
theorem C5_amended :
    format_exif_time "2023:01:15 10:30:00" = "January 15, 2023 at 10:30:00" ∧
    format_exif_time "2023-01-15 10:30:00" = "January 15, 2023 at 10:30:00" ∧
    format_exif_time "2023/01/15 10:30:00" = "January 15, 2023 at 10:30:00" ∧
    ∀ s : String,
      parseDT ':' (pyStrip s) = none → parseDT '-' (pyStrip s) = none →
      parseDT '/' (pyStrip s) = none → format_exif_time s = pyStrip s := by
  refine ⟨by decide, by decide, by decide, ?_⟩
  intro s h1 h2 h3
  simp only [format_exif_time, h1, h2, h3]

/-- C5 witness: the amended theorem at the concrete unparseable input. -/
theorem C5_witness : format_exif_time "garbage" = pyStrip "garbage" :=
  C5_amended.2.2.2 "garbage" (by decide) (by decide) (by decide)

/-- C8: the flash lookup table resolves 0x19 to "Auto, Fired", and every
value outside the table renders as "Unknown (Value: n)" with the decimal
value interpolated — in particular 0xFF gives "Unknown (Value: 255)". -/
theorem C8_flash_lookup :
    flashDisplay (.int 0x19) = "Auto, Fired" ∧
    flashDisplay (.int 0xFF) = "Unknown (Value: 255)" ∧
    ∀ n : Int, dictGet flash_info n = none →
      flashDisplay (.int n) = "Unknown (Value: " ++ toString n ++ ")" := by
  refine ⟨by decide, by decide, ?_⟩
  intro n h
  simp [flashDisplay, h]

/-- C8 witness: the unknown-value arm of the flash theorem at value 2. -/
theorem C8_witness : flashDisplay (.int 2) = "Unknown (Value: " ++ toString (2 : Int) ++ ")" :=
  C8_flash_lookup.2.2 2 (by decide)

theorem strAppend_assoc (a b c : String) : a ++ b ++ c = a ++ (b ++ c) := by
  cases a with
  | mk da =>
      cases b with
      | mk db =>
          cases c with
          | mk dc =>
              show String.mk (da ++ db ++ dc) = String.mk (da ++ (db ++ dc))
              rw [List.append_assoc]

/-- C4: GPS conversion computes degrees + minutes/60 + seconds/3600 with
case-insensitive hemisphere signs (not-N negates latitude, not-E negates
longitude); latitude (40,26,46) N with longitude (79,56,56) W resolves
within 1e-4 of (40.4461, -79.9489); comma-separated string triplets behave
like sequences, lowercase "n" counts as north and "S" negates. -/
theorem C4_gps_conversion :
    (∀ (d m s d2 m2 s2 : ℚ) (r r2 : String),
      convert_gps_coordinates
          ⟨.tup [d, m, s], .str r, .tup [d2, m2, s2], .str r2⟩ =
        (some ((if upperStr r = "N" then (1 : ℚ) else -1) *
            (d + m / 60 + s / 3600)),
         some ((if upperStr r2 = "E" then (1 : ℚ) else -1) *
            (d2 + m2 / 60 + s2 / 3600)))) ∧
    convert_gps_coordinates
        ⟨.tup [40, 26, 46], .str "N", .tup [79, 56, 56], .str "W"⟩ =
      (some (145606 / 3600), some (-(287816 / 3600))) ∧
    ((40.4461 : ℚ) - 1 / 10000 < 145606 / 3600 ∧
      (145606 / 3600 : ℚ) < 40.4461 + 1 / 10000 ∧
      (-79.9489 : ℚ) - 1 / 10000 < -(287816 / 3600) ∧
      (-(287816 / 3600) : ℚ) < -79.9489 + 1 / 10000) ∧
    convert_gps_coordinates
        ⟨.str "40,26,46", .str "n", .str "79,56,56", .str "E"⟩ =
      (some (145606 / 3600), some (287816 / 3600)) ∧
    convert_gps_coordinates
        ⟨.tup [40, 26, 46], .str "S", .tup [79, 56, 56], .str "W"⟩ =
      (some (-(145606 / 3600)), some (-(287816 / 3600))) := by
  have G : ∀ (d m s d2 m2 s2 : ℚ) (r r2 : String),
      convert_gps_coordinates
          ⟨.tup [d, m, s], .str r, .tup [d2, m2, s2], .str r2⟩ =
        (some ((if upperStr r = "N" then (1 : ℚ) else -1) *
            (d + m / 60 + s / 3600)),
         some ((if upperStr r2 = "E" then (1 : ℚ) else -1) *
            (d2 + m2 / 60 + s2 / 3600))) := by
    intro d m s d2 m2 s2 r r2
    simp only [convert_gps_coordinates, convert_coord, gpsValStr]
    by_cases hr : upperStr r = "N" <;> by_cases hr2 : upperStr r2 = "E" <;>
      simp [hr, hr2, one_mul, neg_one_mul]
  refine ⟨G, ?_, by norm_num, ?_, ?_⟩
  · rw [G]
    rw [if_pos (show upperStr "N" = "N" by decide),
      if_neg (show ¬ upperStr "W" = "E" by decide)]
    norm_num
  · have e1 : convert_coord (.str "40,26,46") =
        some ((1 * ((40 : ℚ) + 0 / 10 ^ (0 : Nat))) +
          (1 * ((26 : ℚ) + 0 / 10 ^ (0 : Nat))) / 60 +
          (1 * ((46 : ℚ) + 0 / 10 ^ (0 : Nat))) / 3600) := rfl
    have e2 : convert_coord (.str "79,56,56") =
        some ((1 * ((79 : ℚ) + 0 / 10 ^ (0 : Nat))) +
          (1 * ((56 : ℚ) + 0 / 10 ^ (0 : Nat))) / 60 +
          (1 * ((56 : ℚ) + 0 / 10 ^ (0 : Nat))) / 3600) := rfl
    simp only [convert_gps_coordinates, e1, e2]
    rw [if_pos (show upperStr (gpsValStr (.str "n")) = "N" by decide),
      if_pos (show upperStr (gpsValStr (.str "E")) = "E" by decide)]
    norm_num
  · rw [G]
    rw [if_neg (show ¬ upperStr "S" = "N" by decide),
      if_neg (show ¬ upperStr "W" = "E" by decide)]
    norm_num

theorem castDivLt (n k : Nat) :
    ((n : ℚ) / 1024 ^ k < 1024) ↔ n < 1024 ^ (k + 1) := by
  rw [div_lt_iff₀ (by positivity)]
  rw [show (1024 : ℚ) * 1024 ^ k = ((1024 ^ (k + 1) : Nat) : ℚ) by
    push_cast; ring]
  exact Nat.cast_lt

theorem qDivLt (x : ℚ) (k : Nat) :
    (x / 1024 ^ k < 1024) ↔ x < 1024 ^ (k + 1) := by
  rw [div_lt_iff₀ (by positivity), ← pow_succ']

theorem qDivStep (x : ℚ) (k : Nat) :
    (x / 1024 ^ k) / 1024 = x / 1024 ^ (k + 1) := by
  rw [div_div, pow_succ]

theorem floatOfNat_small (n : Nat) (h : n < 2 ^ 53) :
    floatOfNat n = (n : ℚ) := by
  unfold floatOfNat flNat
  rw [if_pos h]

/-- Closed form of the size function: the B branch compares the int, every
later branch is selected by comparing the converted double against powers
of 1024, with the post-loop PB fallback when no comparison succeeds. -/
theorem hrSizeEq (n : Nat) :
    get_human_readable_size n =
      if n < 1024 then toString n ++ " B"
      else if floatOfNat n < 1024 ^ 2 then
        format2 (floatOfNat n / 1024 ^ 1) ++ " KB"
      else if floatOfNat n < 1024 ^ 3 then
        format2 (floatOfNat n / 1024 ^ 2) ++ " MB"
      else if floatOfNat n < 1024 ^ 4 then
        format2 (floatOfNat n / 1024 ^ 3) ++ " GB"
      else if floatOfNat n < 1024 ^ 5 then
        format2 (floatOfNat n / 1024 ^ 4) ++ " TB"
      else if floatOfNat n < 1024 ^ 6 then
        format2 (floatOfNat n / 1024 ^ 5) ++ " PB"
      else format2 (floatOfNat n / 1024 ^ 6) ++ " PB" := by
  unfold get_human_readable_size
  by_cases h1 : n < 1024
  · rw [if_pos h1, if_pos h1]
  · rw [if_neg h1, if_neg h1]
    rw [show floatOfNat n / 1024 = floatOfNat n / 1024 ^ 1 by rw [pow_one]]
    by_cases h2 : floatOfNat n < 1024 ^ 2
    · rw [hrLoop, if_pos ((qDivLt _ 1).mpr h2),
        if_neg (show ¬("KB" = "B") by decide), if_pos h2, strAppend_assoc]
      rfl
    · rw [hrLoop, if_neg ((not_congr (qDivLt _ 1)).mpr h2), qDivStep,
        if_neg h2]
      by_cases h3 : floatOfNat n < 1024 ^ 3
      · rw [hrLoop, if_pos ((qDivLt _ 2).mpr h3),
          if_neg (show ¬("MB" = "B") by decide), if_pos h3, strAppend_assoc]
        rfl
      · rw [hrLoop, if_neg ((not_congr (qDivLt _ 2)).mpr h3), qDivStep,
          if_neg h3]
        by_cases h4 : floatOfNat n < 1024 ^ 4
        · rw [hrLoop, if_pos ((qDivLt _ 3).mpr h4),
            if_neg (show ¬("GB" = "B") by decide), if_pos h4, strAppend_assoc]
          rfl
        · rw [hrLoop, if_neg ((not_congr (qDivLt _ 3)).mpr h4), qDivStep,
            if_neg h4]
          by_cases h5 : floatOfNat n < 1024 ^ 5
          · rw [hrLoop, if_pos ((qDivLt _ 4).mpr h5),
              if_neg (show ¬("TB" = "B") by decide), if_pos h5,
              strAppend_assoc]
            rfl
          · rw [hrLoop, if_neg ((not_congr (qDivLt _ 4)).mpr h5), qDivStep,
              if_neg h5]
            by_cases h6 : floatOfNat n < 1024 ^ 6
            · rw [hrLoop, if_pos ((qDivLt _ 5).mpr h6),
                if_neg (show ¬("PB" = "B") by decide), if_pos h6,
                strAppend_assoc]
              rfl
            · rw [hrLoop, if_neg ((not_congr (qDivLt _ 5)).mpr h6),
                qDivStep, if_neg h6, hrLoop]

/-- Below 2^53 the double conversion is the identity, so the largest-unit
rule of the claim holds verbatim there. -/
theorem humanSizeClaim_below (n : Nat) (hn : n < 2 ^ 53) :
    humanSizeClaim n := by
  have minim : ∀ (i : Nat) (j : Fin 6), (j : Nat) < i → ¬ n < 1024 ^ i →
      ¬ ((n : ℚ) / 1024 ^ (j : Nat) < 1024) := by
    intro i j hj hlow hcon
    have hle : (1024 : Nat) ^ ((j : Nat) + 1) ≤ 1024 ^ i :=
      Nat.pow_le_pow_right (by norm_num) (by omega)
    exact hlow (lt_of_lt_of_le ((castDivLt n (j : Nat)).mp hcon) hle)
  have hE := hrSizeEq n
  rw [floatOfNat_small n hn] at hE
  have hc : ∀ k : Nat, ((n : ℚ) < 1024 ^ k) ↔ n < 1024 ^ k := by
    intro k
    rw [show ((1024 : ℚ) ^ k) = ((1024 ^ k : Nat) : ℚ) by push_cast; ring]
    exact Nat.cast_lt
  have h6 : n < 1024 ^ 6 := lt_of_lt_of_le hn (by norm_num)
  unfold humanSizeClaim
  by_cases h1 : n < 1024
  · refine ⟨⟨0, by norm_num⟩, ?_, ?_, ?_⟩
    · simpa using (castDivLt n 0).mpr (by simpa using h1)
    · intro j hj
      exact absurd (show (j : Nat) < 0 from hj) (Nat.not_lt_zero _)
    · rw [hE, if_pos h1]
      rfl
  · have h1p : ¬ n < 1024 ^ 1 := by simpa using h1
    by_cases h2 : n < 1024 ^ 2
    · refine ⟨⟨1, by norm_num⟩, (castDivLt n 1).mpr h2,
        fun j hj => minim 1 j hj h1p, ?_⟩
      rw [hE, if_neg h1, if_pos ((hc 2).mpr h2), strAppend_assoc]
      rfl
    · by_cases h3 : n < 1024 ^ 3
      · refine ⟨⟨2, by norm_num⟩, (castDivLt n 2).mpr h3,
          fun j hj => minim 2 j hj h2, ?_⟩
        rw [hE, if_neg h1, if_neg ((not_congr (hc 2)).mpr h2),
          if_pos ((hc 3).mpr h3), strAppend_assoc]
        rfl
      · by_cases h4 : n < 1024 ^ 4
        · refine ⟨⟨3, by norm_num⟩, (castDivLt n 3).mpr h4,
            fun j hj => minim 3 j hj h3, ?_⟩
          rw [hE, if_neg h1, if_neg ((not_congr (hc 2)).mpr h2),
            if_neg ((not_congr (hc 3)).mpr h3), if_pos ((hc 4).mpr h4),
            strAppend_assoc]
          rfl
        · by_cases h5 : n < 1024 ^ 5
          · refine ⟨⟨4, by norm_num⟩, (castDivLt n 4).mpr h5,
              fun j hj => minim 4 j hj h4, ?_⟩
            rw [hE, if_neg h1, if_neg ((not_congr (hc 2)).mpr h2),
              if_neg ((not_congr (hc 3)).mpr h3),
              if_neg ((not_congr (hc 4)).mpr h4), if_pos ((hc 5).mpr h5),
              strAppend_assoc]
            rfl
          · refine ⟨⟨5, by norm_num⟩, (castDivLt n 5).mpr h6,
              fun j hj => minim 5 j hj h5, ?_⟩
            rw [hE, if_neg h1, if_neg ((not_congr (hc 2)).mpr h2),
              if_neg ((not_congr (hc 3)).mpr h3),
              if_neg ((not_congr (hc 4)).mpr h4),
              if_neg ((not_congr (hc 5)).mpr h5), if_pos ((hc 6).mpr h6),
              strAppend_assoc]
            rfl

/-- C6 (amended): byte counts below 2^53 render in the largest unit among
B..PB whose scaled value is below 1024 — whole bytes without decimals,
larger units with exactly two decimals — and 1023, 1024 and 1048576 give
"1023 B", "1.00 KB" and "1.00 MB".  From 2^53 on, the unit and the printed
value are determined by the IEEE-754 double the count is converted to at
the first division: counts in [1024^6 - 64, 1024^6 - 1] convert up to
exactly 1024^6, fall out of the loop like counts of 1024^6 and above, and
print "1.00 PB", while 1024^6 - 65 still prints "1024.00 PB"; two-decimal
rendering rounds ties to even.  Counts of 2^1024 and above would overflow
the conversion in Python and are outside the model. -/
theorem C6_amended :
    (∀ n : Nat, n < 2 ^ 1024 → get_human_readable_size n =
      if n < 1024 then toString n ++ " B"
      else if floatOfNat n < 1024 ^ 2 then
        format2 (floatOfNat n / 1024 ^ 1) ++ " KB"
      else if floatOfNat n < 1024 ^ 3 then
        format2 (floatOfNat n / 1024 ^ 2) ++ " MB"
      else if floatOfNat n < 1024 ^ 4 then
        format2 (floatOfNat n / 1024 ^ 3) ++ " GB"
      else if floatOfNat n < 1024 ^ 5 then
        format2 (floatOfNat n / 1024 ^ 4) ++ " TB"
      else if floatOfNat n < 1024 ^ 6 then
        format2 (floatOfNat n / 1024 ^ 5) ++ " PB"
      else format2 (floatOfNat n / 1024 ^ 6) ++ " PB") ∧
    (∀ n : Nat, n < 2 ^ 53 → humanSizeClaim n) ∧
    get_human_readable_size 1023 = "1023 B" ∧
    get_human_readable_size 1024 = "1.00 KB" ∧
    get_human_readable_size 1048576 = "1.00 MB" ∧
    get_human_readable_size (1024 ^ 6 - 1) = "1.00 PB" ∧
    get_human_readable_size (1024 ^ 6 - 65) = "1024.00 PB" := by
  refine ⟨fun n _ => hrSizeEq n, humanSizeClaim_below, ?_, ?_, ?_, ?_, ?_⟩
  · decide
  · norm_num [get_human_readable_size, floatOfNat,
      show flNat 1024 = 1024 from by decide, hrLoop, format2,
      roundHalfEven] <;> decide
  · norm_num [get_human_readable_size, floatOfNat,
      show flNat 1048576 = 1048576 from by decide, hrLoop, format2,
      roundHalfEven] <;> decide
  · norm_num [get_human_readable_size, floatOfNat,
      show flNat 1152921504606846975 = 1152921504606846976 from by decide, hrLoop, format2,
      roundHalfEven] <;> decide
  · norm_num [get_human_readable_size, floatOfNat,
      show flNat 1152921504606846911 = 1152921504606846848 from by decide, hrLoop,
      format2, roundHalfEven] <;> decide

/-- C6 (counterexample): at 1024^6 bytes no unit in B..PB scales below
1024, yet the code prints the six-times-divided value as PB, so the
largest-unit rule of the claim fails there. -/
theorem C6_counterexample :
    ¬ humanSizeClaim (1024 ^ 6) ∧
      get_human_readable_size (1024 ^ 6) = "1.00 PB" := by
  constructor
  · rintro ⟨i, hi, -, -⟩
    fin_cases i <;> norm_num at hi
  · norm_num [get_human_readable_size, floatOfNat,
      show flNat 1152921504606846976 = 1152921504606846976 from by decide, hrLoop, format2,
      roundHalfEven] <;> decide

/-- C6 witness: the amended theorem applied at 1 MiB, discharging both
bounds. -/
theorem C6_witness :
    get_human_readable_size 1048576 =
      (if (1048576 : Nat) < 1024 then toString (1048576 : Nat) ++ " B"
       else if floatOfNat 1048576 < 1024 ^ 2 then
         format2 (floatOfNat 1048576 / 1024 ^ 1) ++ " KB"
       else if floatOfNat 1048576 < 1024 ^ 3 then
         format2 (floatOfNat 1048576 / 1024 ^ 2) ++ " MB"
       else if floatOfNat 1048576 < 1024 ^ 4 then
         format2 (floatOfNat 1048576 / 1024 ^ 3) ++ " GB"
       else if floatOfNat 1048576 < 1024 ^ 5 then
         format2 (floatOfNat 1048576 / 1024 ^ 4) ++ " TB"
       else if floatOfNat 1048576 < 1024 ^ 6 then
         format2 (floatOfNat 1048576 / 1024 ^ 5) ++ " PB"
       else format2 (floatOfNat 1048576 / 1024 ^ 6) ++ " PB") ∧
    humanSizeClaim 1048576 :=
  ⟨C6_amended.1 1048576 (by norm_num), C6_amended.2.1 1048576 (by norm_num)⟩

/-- C10: `convert_gps_coordinates` never returns a mixed pair — either both
components are missing or both are numeric. -/
theorem C10_gps_pair_invariant (g : GpsArgs) :
    convert_gps_coordinates g = (none, none) ∨
      ∃ a b : ℚ, convert_gps_coordinates g = (some a, some b) := by
  unfold convert_gps_coordinates
  cases h1 : convert_coord g.latitude with
  | none => left; rfl
  | some lat0 =>
      cases h2 : convert_coord g.longitude with
      | none => left; rfl
      | some lon0 =>
          right
          exact ⟨_, _, rfl⟩

/-- C2: for every environment (existing or missing file, image or not,
any combination of subsystem failures) the pipeline returns a record;
either the body finishes and the record carries no error category, or the
body fails and the returned record is the record built so far with the
Critical Error and Stack Trace entries added — failure is encoded in
record content, never thrown to the caller. -/
theorem C2_pipeline_total (env : Env) :
    (∃ r, extractBody env = .ok r ∧ extract_all_metadata env = r ∧
      "❌ Critical Error" ∉ keysOf r ∧ "❌ Stack Trace" ∉ keysOf r) ∨
    (∃ p e, extractBody env = .error (p, e) ∧
      extract_all_metadata env =
        dictSet (dictSet p "❌ Critical Error"
            (.strVal ("Failed to process image: " ++ e)))
          "❌ Stack Trace" (.strVal env.traceText) ∧
      "❌ Critical Error" ∈ keysOf (extract_all_metadata env) ∧
      "❌ Stack Trace" ∈ keysOf (extract_all_metadata env)) := by
  cases hb : extractBody env with
  | ok r =>
      left
      refine ⟨r, rfl, ?_, ?_, ?_⟩
      · unfold extract_all_metadata
        rw [hb]
      · exact (extractBody_no_new_keys env _ (by decide)).1 r hb
      · exact (extractBody_no_new_keys env _ (by decide)).1 r hb
  | error pe =>
      obtain ⟨p, e⟩ := pe
      right
      refine ⟨p, e, rfl, ?_, ?_, ?_⟩
      · unfold extract_all_metadata
        rw [hb]
      · unfold extract_all_metadata
        rw [hb]
        exact mem_keysOf_dictSet_of_mem _ _ (mem_keysOf_dictSet_self _ _ _)
      · unfold extract_all_metadata
        rw [hb]
        exact mem_keysOf_dictSet_self _ _ _

/-- C9: whenever the stat succeeds and the primary decoder opens the file,
the returned record contains the file-information and file-integrity
categories, whatever else happens (no EXIF, no GPS, later failures). -/
theorem C9_min_categories (env : Env) (img : ImgInfo)
    (hstat : env.statResult = .ok ()) (hopen : env.openImg = .ok img) :
    "📁 File Information" ∈ keysOf (extract_all_metadata env) ∧
    "🔒 File Integrity" ∈ keysOf (extract_all_metadata env) := by
  have main : ∀ k : String,
      k ∈ keysOf (dictSet
        (dictSet initRec "📁 File Information" (.flat (fileInfoFields env)))
        "🔒 File Integrity"
        (.flat (calculate_file_hashes env.digests env.readBytes))) →
      k ∈ keysOf (extract_all_metadata env) := by
    intro k hk
    simp only [extract_all_metadata, extractBody, hstat, hopen]
    cases hr : afterOpen env img (dictSet
        (dictSet initRec "📁 File Information" (.flat (fileInfoFields env)))
        "🔒 File Integrity"
        (.flat (calculate_file_hashes env.digests env.readBytes))) with
    | ok r =>
        try rw [hr]
        exact (afterOpen_keeps env img _ k hk).1 r hr
    | error pe =>
        obtain ⟨p, e⟩ := pe
        try rw [hr]
        exact mem_keysOf_dictSet_of_mem _ _ (mem_keysOf_dictSet_of_mem _ _
          ((afterOpen_keeps env img _ k hk).2 p e hr))
  exact ⟨main _ (mem_keysOf_dictSet_of_mem _ _ (mem_keysOf_dictSet_self _ _ _)),
    main _ (mem_keysOf_dictSet_self _ _ _)⟩

/-- C9 witness: a decodable image with no EXIF block at all. -/
theorem C9_witness :
    "📁 File Information" ∈ keysOf (extract_all_metadata envPlain) ∧
    "🔒 File Integrity" ∈ keysOf (extract_all_metadata envPlain) :=
  C9_min_categories envPlain imgPlain rfl rfl

/-- C1 (counterexample): the concrete existing-but-undecodable file.  The
record holds the error category and trace, but the fully populated File
Information category (ten fields, first one the file name) and the hash
category built before the failure are still present — the record is not
reduced to error plus trace alone. -/
theorem C1_counterexample :
    keysOf (extract_all_metadata envC1) =
      ["⚠️ Warnings", "🔒 File Integrity", "🕵️‍♂️ Forensic Analysis",
       "📁 File Information", "❌ Critical Error", "❌ Stack Trace"] ∧
    dictGet (extract_all_metadata envC1) "📁 File Information" =
      some (.flat (fileInfoFields envC1)) ∧
    (fileInfoFields envC1).length = 10 ∧
    (fileInfoFields envC1).head? = some ("File Name", "broken.jpg") ∧
    dictGet (extract_all_metadata envC1) "❌ Critical Error" =
      some (.strVal "Failed to process image: cannot identify image file") ∧
    dictGet (extract_all_metadata envC1) "❌ Stack Trace" =
      some (.strVal "Traceback (most recent call last): ValueError") := by
  refine ⟨by decide, rfl, rfl, by decide, rfl, rfl⟩

/-- C1 (amended): on an existing file the primary decoder rejects, the
record consists of exactly the three initial categories (empty warnings,
the computed hash set, the empty forensic category), the file-information
category built before the failure, and the error category plus diagnostic
trace; no camera, GPS, date, dimensions or device category is present. -/
theorem C1_amended (env : Env) (e : String)
    (hstat : env.statResult = .ok ()) (hopen : env.openImg = .error e) :
    keysOf (extract_all_metadata env) =
      ["⚠️ Warnings", "🔒 File Integrity", "🕵️‍♂️ Forensic Analysis",
       "📁 File Information", "❌ Critical Error", "❌ Stack Trace"] ∧
    dictGet (extract_all_metadata env) "📁 File Information" =
      some (.flat (fileInfoFields env)) ∧
    dictGet (extract_all_metadata env) "🔒 File Integrity" =
      some (.flat (calculate_file_hashes env.digests env.readBytes)) ∧
    dictGet (extract_all_metadata env) "❌ Critical Error" =
      some (.strVal ("Failed to process image: " ++ e)) ∧
    dictGet (extract_all_metadata env) "❌ Stack Trace" =
      some (.strVal env.traceText) ∧
    "📷 Camera Information" ∉ keysOf (extract_all_metadata env) ∧
    "📍 GPS & Location Data" ∉ keysOf (extract_all_metadata env) ∧
    "🕒 Date & Time Information" ∉ keysOf (extract_all_metadata env) ∧
    "📐 Image Dimensions & Quality" ∉ keysOf (extract_all_metadata env) ∧
    "📱 Device Information" ∉ keysOf (extract_all_metadata env) := by
  have hx : keysOf (extract_all_metadata env) =
      ["⚠️ Warnings", "🔒 File Integrity", "🕵️‍♂️ Forensic Analysis",
       "📁 File Information", "❌ Critical Error", "❌ Stack Trace"] := by
    simp only [extract_all_metadata, extractBody, hstat, hopen]
    simp [initRec, dictSet, keysOf]
  refine ⟨hx, ?_, ?_, ?_, ?_, ?_, ?_, ?_, ?_, ?_⟩ <;>
    first
    | (rw [hx]; decide)
    | (simp only [extract_all_metadata, extractBody, hstat, hopen]
       simp [initRec, dictSet, dictGet, keysOf])

/-- C1 witness: the amended statement at the concrete broken file. -/
theorem C1_witness :
    keysOf (extract_all_metadata envC1) =
      ["⚠️ Warnings", "🔒 File Integrity", "🕵️‍♂️ Forensic Analysis",
       "📁 File Information", "❌ Critical Error", "❌ Stack Trace"] ∧
    "📷 Camera Information" ∉ keysOf (extract_all_metadata envC1) :=
  ⟨(C1_amended envC1 "cannot identify image file" rfl rfl).1,
   (C1_amended envC1 "cannot identify image file" rfl rfl).2.2.2.2.2.1⟩

/-- C7: the phone table is matched in order, capture groups supply the
model ("iPhone13Pro" gives brand iPhone and model "13Pro";
"Samsung Galaxy S21" gives Samsung), unmatched strings return no brand and
the original string; brands infer iOS for the Apple family and Android for
every other listed brand; in the pipeline a matched Model tag synthesizes
the Device Information category and an unmatched one never does. -/
theorem C7_phone_matching :
    extract_phone_info "iPhone13Pro" = (some "iPhone", "13Pro") ∧
    extract_phone_info "Samsung Galaxy S21" = (some "Samsung", "Galaxy S21") ∧
    extract_phone_info "Canon EOS 5D" = (none, "Canon EOS 5D") ∧
    osForBrand "iPhone" = "iOS" ∧
    osForBrand "Samsung" = "Android" ∧
    (∀ s : String, (extract_phone_info s).1 = none →
      (extract_phone_info s).2 = s) ∧
    (∀ s b : String, (extract_phone_info s).1 = some b →
      osForBrand b =
        if b = "iPhone" ∨ b = "iPad" then "iOS" else "Android") ∧
    (∀ (env : Env) (img : ImgInfo) (v : PyVal),
      env.statResult = .ok () → env.openImg = .ok img →
      lookupVal (exifDataOf env img) "Model" = some v →
      (extract_phone_info (pyStr v)).1 = none →
      "📱 Device Information" ∉ keysOf (extract_all_metadata env)) ∧
    (∀ (env : Env) (img : ImgInfo) (v : PyVal) (b : String),
      env.statResult = .ok () → env.openImg = .ok img → img.height ≠ 0 →
      lookupVal (exifDataOf env img) "Model" = some v →
      (extract_phone_info (pyStr v)).1 = some b →
      "📱 Device Information" ∈ keysOf (extract_all_metadata env)) := by
  refine ⟨by decide, by decide, by decide, by decide, by decide,
    fun s h => phoneFirst_none s phone_db h, ?_, ?_, ?_⟩
  · intro s b h
    have hmem := phoneFirst_mem s phone_db b h
    simp only [phone_db, List.map_cons, List.map_nil, List.mem_cons,
      List.not_mem_nil, or_false] at hmem
    rcases hmem with rfl | rfl | rfl | rfl | rfl | rfl | rfl | rfl | rfl | rfl <;>
      decide
  · intro env img v hstat hopen hv hb
    have hm2 : "📱 Device Information" ∉ keysOf (dictSet
        (dictSet initRec "📁 File Information" (.flat (fileInfoFields env)))
        "🔒 File Integrity"
        (.flat (calculate_file_hashes env.digests env.readBytes))) :=
      not_mem_keysOf_dictSet _ (by decide)
        (not_mem_keysOf_dictSet _ (by decide) (by decide))
    have hAO := afterOpen_device_none env img _ v hv hb hm2
    simp only [extract_all_metadata, extractBody, hstat, hopen]
    cases hr : afterOpen env img (dictSet
        (dictSet initRec "📁 File Information" (.flat (fileInfoFields env)))
        "🔒 File Integrity"
        (.flat (calculate_file_hashes env.digests env.readBytes))) with
    | ok r =>
        try rw [hr]
        exact hAO.1 r hr
    | error pe =>
        obtain ⟨p, e⟩ := pe
        try rw [hr]
        exact not_mem_keysOf_dictSet _ (by decide)
          (not_mem_keysOf_dictSet _ (by decide) (hAO.2 p e hr))
  · intro env img v b hstat hopen h0 hv hb
    have hAO := afterOpen_device_some env img (dictSet
        (dictSet initRec "📁 File Information" (.flat (fileInfoFields env)))
        "🔒 File Integrity"
        (.flat (calculate_file_hashes env.digests env.readBytes)))
      v b h0 hv hb
    simp only [extract_all_metadata, extractBody, hstat, hopen]
    cases hr : afterOpen env img (dictSet
        (dictSet initRec "📁 File Information" (.flat (fileInfoFields env)))
        "🔒 File Integrity"
        (.flat (calculate_file_hashes env.digests env.readBytes))) with
    | ok r =>
        try rw [hr]
        exact hAO.1 r hr
    | error pe =>
        obtain ⟨p, e⟩ := pe
        try rw [hr]
        exact mem_keysOf_dictSet_of_mem _ _
          (mem_keysOf_dictSet_of_mem _ _ (hAO.2 p e hr))

/-- C7 witness: the theorem applied to concrete model strings and to the
concrete environments with an iPhone Model tag and an unmatched one. -/
theorem C7_witness :
    (extract_phone_info "Canon EOS 5D").2 = "Canon EOS 5D" ∧
    osForBrand "iPhone" =
      (if "iPhone" = "iPhone" ∨ "iPhone" = "iPad" then "iOS" else "Android") ∧
    "📱 Device Information" ∉ keysOf (extract_all_metadata envCanon) ∧
    "📱 Device Information" ∈ keysOf (extract_all_metadata envPhone) :=
  ⟨C7_phone_matching.2.2.2.2.2.1 "Canon EOS 5D" (by decide),
   C7_phone_matching.2.2.2.2.2.2.1 "iPhone13Pro" "iPhone" (by decide),
   C7_phone_matching.2.2.2.2.2.2.2.1 envCanon imgCanon
     (.str "Canon EOS 5D") rfl rfl (by decide) (by decide),
   C7_phone_matching.2.2.2.2.2.2.2.2 envPhone imgPhone
     (.str "iPhone13Pro") "iPhone" rfl rfl (by decide) (by decide) (by decide)⟩

end AIM
